import Mathlib

/-!
Verification development for the agriculture query-orchestration pipeline
(`src/agent`, `src/utils`, `src/knowledge`).

Shallow embedding conventions, used throughout:

* Metric values (temperature, humidity) are modelled as exact rationals `ℚ`.
  The Python code computes with IEEE floats; no claim in scope depends on
  rounding of float arithmetic, only on exact arithmetic identities.
* A float `NaN` is modelled as `none` of an `Option` type.  In particular
  `pandas.Series.std` (which uses the `ddof = 1` sample divisor and yields
  `NaN` for fewer than two values) is modelled by the *square* of the
  standard deviation, `stdSqOf : List ℚ → Option ℚ`.  The square root is
  strictly monotone on the nonnegative reals, so all comparisons, arg-max
  computations and NaN-ness of standard deviations are preserved by this
  representation; theorems about the reported standard deviation itself
  apply `Real.sqrt` to the stored square.
* Calendar dates are modelled by their day index (days since 1970-01-01,
  which was a Thursday); the proleptic Gregorian conversions follow the
  standard civil-from-days / days-from-civil algorithms.  The Python code
  renders dates as `YYYY-MM-DD` strings; that rendering is injective, so a
  range of dates is modelled by the pair of day indices.
* `datetime.now()` is modelled by an explicit `today : Int` parameter
  (day index of the current date), threaded through every function that
  reads the clock.
* Python exceptions are modelled by `Except Unit`; a `try/except` block
  becomes a `match` on the result.
-/

/-! ## Characters and substrings

Python string operations used by the code: `str.lower`, the substring test
`needle in hay`, and `re.search` over a handful of fixed patterns.  Queries
and vocabularies only use ASCII plus the Spanish letters á é í ó ú ü ñ (and
their capitals), so lowering and the regex word-character class `\w` are
modelled on that repertoire. -/

/-- `str.lower` on the character repertoire used by the vocabularies. -/
def lowerChar (c : Char) : Char :=
  if 'A' ≤ c && c ≤ 'Z' then Char.ofNat (c.toNat + 32)
  else if c = 'Á' then 'á' else if c = 'É' then 'é' else if c = 'Í' then 'í'
  else if c = 'Ó' then 'ó' else if c = 'Ú' then 'ú' else if c = 'Ü' then 'ü'
  else if c = 'Ñ' then 'ñ' else c

def lowerList (l : List Char) : List Char := l.map lowerChar

/-- Regex `\w` (Unicode word character) restricted to the repertoire in use. -/
def isWordChar (c : Char) : Bool :=
  c.isAlphanum || c = '_' ||
    c ∈ ['á', 'é', 'í', 'ó', 'ú', 'ü', 'ñ', 'Á', 'É', 'Í', 'Ó', 'Ú', 'Ü', 'Ñ']

/-- Regex `\s` (whitespace). -/
def isSpaceChar (c : Char) : Bool :=
  c = ' ' || c = '\t' || c = '\n' || c = '\r'

/-- `p` occurs at the head of `l`. -/
def listStartsWith (p l : List Char) : Bool :=
  match p, l with
  | [], _ => true
  | _ :: _, [] => false
  | a :: ps, b :: ls => a == b && listStartsWith ps ls

/-- Python's `needle in hay` (contiguous-substring test). -/
def listHasSub (hay needle : List Char) : Bool :=
  match hay with
  | [] => needle.isEmpty
  | _ :: t => listStartsWith needle hay || listHasSub t needle

def strHasSub (hay needle : String) : Bool := listHasSub hay.toList needle.toList

/-- The alternative `alt` matches at position `i` of `hay` with a regex word
boundary `\b` on both sides (every alternative in the patterns in use starts
and ends with a word character, so `\b` means: the adjacent character, when
present, is not a word character). -/
def wordBoundedAt (alt : List Char) (hay : List Char) (i : Nat) : Bool :=
  listStartsWith alt (hay.drop i)
    && (i == 0 || !isWordChar (hay.getD (i - 1) ' '))
    && (i + alt.length == hay.length || !isWordChar (hay.getD (i + alt.length) ' '))

/-- `re.search(r"\b(a₁|a₂|…)\b", hay)` succeeds (as a Boolean; the patterns
used through this matcher are only tested for success). -/
def reWordAlt (alts : List String) (hay : List Char) : Bool :=
  (List.range (hay.length + 1)).any fun i =>
    alts.any fun a => wordBoundedAt a.toList hay i

/-- `str.strip()`. -/
def stripSpaces (l : List Char) : List Char :=
  ((l.dropWhile isSpaceChar).reverse.dropWhile isSpaceChar).reverse

/-- Numeric value of a digit run. -/
def digitsVal (l : List Char) : Nat :=
  l.foldl (fun a c => a * 10 + (c.toNat - 48)) 0

/-- Exactly `n` digits at position `i` of `hay`, and their value. -/
def exactDigits (hay : List Char) (i n : Nat) : Option Nat :=
  let seg := (hay.drop i).take n
  if seg.length == n && seg.all Char.isDigit then some (digitsVal seg) else none

/-- Length of the maximal digit run starting at position `i` (regex `\d+`,
greedy). -/
def digitRunLen (hay : List Char) (i : Nat) : Nat :=
  ((hay.drop i).takeWhile Char.isDigit).length

/-- Length of the maximal whitespace run starting at position `i` (`\s+`,
greedy). -/
def spaceRunLen (hay : List Char) (i : Nat) : Nat :=
  ((hay.drop i).takeWhile isSpaceChar).length

/-- `\b` holds before position `i` (the pattern continues with a word
character). -/
def boundaryBefore (hay : List Char) (i : Nat) : Bool :=
  i == 0 || !isWordChar (hay.getD (i - 1) ' ')

/-- `\b` holds after position `i` (the pattern ended with a word character). -/
def boundaryAfter (hay : List Char) (i : Nat) : Bool :=
  i == hay.length || !isWordChar (hay.getD i ' ')

/-! ## Calendar arithmetic

Day indices are days since 1970-01-01 (a Thursday).  `daysFromCivil` /
`civilFromDays` are the standard proleptic-Gregorian conversions. -/

structure Ymd where
  year : Int
  month : Int
  day : Int
deriving DecidableEq, Repr

def daysFromCivil (y m d : Int) : Int :=
  let y' := if m ≤ 2 then y - 1 else y
  let era := y' / 400
  let yoe := y' - era * 400
  let mp := if m > 2 then m - 3 else m + 9
  let doy := (153 * mp + 2) / 5 + d - 1
  let doe := yoe * 365 + yoe / 4 - yoe / 100 + doy
  era * 146097 + doe - 719468

def civilFromDays (z : Int) : Ymd :=
  let z' := z + 719468
  let era := z' / 146097
  let doe := z' - era * 146097
  let yoe := (doe - doe / 1460 + doe / 36524 - doe / 146096) / 365
  let y := yoe + era * 400
  let doy := doe - (365 * yoe + yoe / 4 - yoe / 100)
  let mp := (5 * doy + 2) / 153
  let d := doy - (153 * mp + 2) / 5 + 1
  let m := if mp < 10 then mp + 3 else mp - 9
  ⟨if m ≤ 2 then y + 1 else y, m, d⟩

/-- Python `datetime.weekday()`: Monday = 0 … Sunday = 6. -/
def pyWeekday (z : Int) : Int := (z + 3) % 7

def isLeapYear (y : Int) : Bool :=
  y % 4 == 0 && (y % 100 != 0 || y % 400 == 0)

def daysInMonth (y m : Int) : Int :=
  if m = 2 then (if isLeapYear y then 29 else 28)
  else if m = 4 ∨ m = 6 ∨ m = 9 ∨ m = 11 then 30
  else 31

/-- `datetime(year, month, day)` succeeds (Python bounds the year to
1..9999; an out-of-range component raises `ValueError`). -/
def isValidDate (y m d : Int) : Bool :=
  1 ≤ y && y ≤ 9999 && 1 ≤ m && m ≤ 12 && 1 ≤ d && d ≤ daysInMonth y m

/-- `date.replace(day=1)` on a day index. -/
def firstOfMonth (z : Int) : Int :=
  let c := civilFromDays z
  daysFromCivil c.year c.month 1

/-- `date.replace(day=1) + relativedelta(months=1)` on a day index (the first
day of the following month). -/
def firstOfNextMonth (z : Int) : Int :=
  let c := civilFromDays z
  if c.month = 12 then daysFromCivil (c.year + 1) 1 1
  else daysFromCivil c.year (c.month + 1) 1

def yearOfDay (z : Int) : Int := (civilFromDays z).year

def monthOfDay (z : Int) : Int := (civilFromDays z).month

/-! ## Temporal expression resolver (`src/utils/date_parser.py`)

`DateParser.parse_time_expression` lowers and strips the text, then tries,
in this order: specific day expressions, specific dates, relative periods,
weekday names; any exception inside is caught and turns the whole result
into `None` (the `Except Unit` layer below). -/

/-- A resolved date range; the Python code stores it as a dict with
`YYYY-MM-DD` strings for keys `start` and `end` (the `end` key is named
`stop` here because `end` is reserved in Lean). -/
structure DateRange where
  start : Int
  stop : Int
deriving DecidableEq, Repr

def singleDay (z : Int) : DateRange := ⟨z, z⟩

namespace DateParser

/-- `_parse_specific_expressions`: the literal day words, each tested with a
word-bounded alternation regex, in source order.  Note the source tests
`mañana` before `anteayer`/`pasado mañana`. -/
def parseSpecificExpressions (today : Int) (t : List Char) : Option DateRange :=
  if reWordAlt ["hoy"] t then some (singleDay today)
  else if reWordAlt ["ayer"] t then some (singleDay (today - 1))
  else if reWordAlt ["mañana", "manana"] t then some (singleDay (today + 1))
  else if reWordAlt ["anteayer", "ante ayer"] t then some (singleDay (today - 2))
  else if reWordAlt ["pasado mañana", "pasado manana"] t then some (singleDay (today + 2))
  else none

/-- One attempt of the `fecha_especifica` pattern (day digits, a slash or
dash, month digits, a slash or dash, four year digits, word-bounded) at
position `i` with chosen group widths `l1`, `l2`. -/
def fechaAttempt (hay : List Char) (i l1 l2 : Nat) : Option (Nat × Nat × Nat) :=
  match exactDigits hay i l1 with
  | none => none
  | some d =>
    let c1 := hay.getD (i + l1) ' '
    if c1 == '/' || c1 == '-' then
      match exactDigits hay (i + l1 + 1) l2 with
      | none => none
      | some m =>
        let c2 := hay.getD (i + l1 + 1 + l2) ' '
        if c2 == '/' || c2 == '-' then
          match exactDigits hay (i + l1 + l2 + 2) 4 with
          | none => none
          | some y =>
            if boundaryAfter hay (i + l1 + l2 + 6) then some (d, m, y) else none
        else none
    else none

/-- `re.search` of the `fecha_especifica` pattern: scan positions left to
right; at each position the greedy `\d{1,2}` groups backtrack from width 2
to width 1. -/
def findFechaEspecifica (hay : List Char) : Option (Nat × Nat × Nat) :=
  (List.range (hay.length + 1)).findSome? fun i =>
    if boundaryBefore hay i then
      (fechaAttempt hay i 2 2).orElse fun _ =>
      (fechaAttempt hay i 2 1).orElse fun _ =>
      (fechaAttempt hay i 1 2).orElse fun _ =>
      fechaAttempt hay i 1 1
    else none

def monthNames : List (String × Nat) :=
  [("enero", 1), ("febrero", 2), ("marzo", 3), ("abril", 4), ("mayo", 5),
   ("junio", 6), ("julio", 7), ("agosto", 8), ("septiembre", 9),
   ("octubre", 10), ("noviembre", 11), ("diciembre", 12)]

/-- Match one month name of the alternation at position `i`; returns its
number and length (no month name is a prefix of another, so alternation
order is immaterial). -/
def monthAt (hay : List Char) (i : Nat) : Option (Nat × Nat) :=
  monthNames.findSome? fun p =>
    if listStartsWith p.1.toList (hay.drop i) then some (p.2, p.1.1.length) else none

/-- Optional `de\s+` at position `i`: the consumed length when it matches. -/
def deSpaces (hay : List Char) (i : Nat) : Option Nat :=
  if listStartsWith ['d', 'e'] (hay.drop i) then
    let k := spaceRunLen hay (i + 2)
    if k == 0 then none else some (2 + k)
  else none

/-- The optional year group `(\s+(de\s+)?(\d{4}))?` starting at position `i`:
returns (whether the inner `(de\s+)` group matched, the year).  Group 5 of
the source regex is that inner `de\s+` group — see `parseSpecificDates`. -/
def fechaTextoYear (hay : List Char) (i : Nat) : Option (Bool × Nat) :=
  let k := spaceRunLen hay i
  if k == 0 then none
  else
    let p := i + k
    let withDe :=
      match deSpaces hay p with
      | none => none
      | some dl =>
        match exactDigits hay (p + dl) 4 with
        | none => none
        | some y => if boundaryAfter hay (p + dl + 4) then some (true, y) else none
    match withDe with
    | some r => some r
    | none =>
      match exactDigits hay p 4 with
      | none => none
      | some y => if boundaryAfter hay (p + 4) then some (false, y) else none

/-- One attempt of the `fecha_texto` pattern
`\b(\d{1,2})\s+(de\s+)?(<month>)(\s+(de\s+)?(\d{4}))?\b` at position `i`
with day-group width `l1`.  Returns (day, month, the inner year `de\s+`
group matched, year digits when present). -/
def fechaTextoAttempt (hay : List Char) (i l1 : Nat) :
    Option (Nat × Nat × Bool × Option Nat) :=
  match exactDigits hay i l1 with
  | none => none
  | some d =>
    let k := spaceRunLen hay (i + l1)
    if k == 0 then none
    else
      let p := i + l1 + k
      let tryMonth : Nat → Option (Nat × Nat × Bool × Option Nat) := fun q =>
        match monthAt hay q with
        | none => none
        | some (m, ml) =>
          match fechaTextoYear hay (q + ml) with
          | some (deFlag, y) => some (d, m, deFlag, some y)
          | none => if boundaryAfter hay (q + ml) then some (d, m, false, none) else none
      match deSpaces hay p with
      | some dl =>
        match tryMonth (p + dl) with
        | some r => some r
        | none => tryMonth p
      | none => tryMonth p

/-- `re.search` of the `fecha_texto` pattern (day width backtracks 2 → 1). -/
def findFechaTexto (hay : List Char) : Option (Nat × Nat × Bool × Option Nat) :=
  (List.range (hay.length + 1)).findSome? fun i =>
    if boundaryBefore hay i then
      (fechaTextoAttempt hay i 2).orElse fun _ => fechaTextoAttempt hay i 1
    else none

/-- `_parse_specific_dates`.  Notes taken directly from the source:
* an invalid calendar date makes the function `return None` (skipping the
  `fecha_texto` branch when the invalid date came from `fecha_especifica`);
* for `fecha_texto`, the year is read as `int(match.group(5))` — but group 5
  is the *inner `de\s+` group* of the year part, not the year digits
  (group 6); when that group matched, `int("de ")` raises `ValueError`,
  which propagates out of `_parse_specific_dates` (modelled as `.error`),
  and when it did not match the year silently defaults to the current year
  even if explicit year digits are present. -/
def parseSpecificDates (today : Int) (hay : List Char) : Except Unit (Option DateRange) :=
  match findFechaEspecifica hay with
  | some (d, m, y) =>
    .ok (if isValidDate y m d then some (singleDay (daysFromCivil y m d)) else none)
  | none =>
    match findFechaTexto hay with
    | some (d, m, deFlag, _) =>
      if deFlag then .error ()
      else
        let y := yearOfDay today
        .ok (if isValidDate y m d then some (singleDay (daysFromCivil y m d)) else none)
    | none => .ok none

/-- One attempt of one alternative of the `ultimos_dias`-style patterns, e.g.
`últimos?\s+(\d+)\s+días?` at position `i`: `stem` then optional `s`, spaces,
the digit group, spaces, `unit` then optional `s` when `optS`; returns the
digit group's value. -/
def nDaysAttempt (hay : List Char) (i : Nat) (stem : String) (unit : String)
    (optS : Bool) : Option Nat :=
  let s := stem.toList
  if listStartsWith s (hay.drop i) then
    let tryTail : Nat → Option Nat := fun j =>
      let k := spaceRunLen hay j
      if k == 0 then none
      else
        let p := j + k
        let dl := digitRunLen hay p
        if dl == 0 then none
        else
          let n := digitsVal ((hay.drop p).take dl)
          let k2 := spaceRunLen hay (p + dl)
          if k2 == 0 then none
          else
            let q := p + dl + k2
            let u := unit.toList
            if listStartsWith u (hay.drop q) then
              let qe := q + u.length
              if optS && hay.getD qe ' ' == 's' then
                if boundaryAfter hay (qe + 1) then some n
                else if boundaryAfter hay qe then some n else none
              else if boundaryAfter hay qe then some n else none
            else none
    let j := i + s.length
    -- greedy optional `s` after the stem, with backtracking
    if hay.getD j ' ' == 's' then
      match tryTail (j + 1) with
      | some n => some n
      | none => tryTail j
    else tryTail j
  else none

/-- `re.search` of `\b(últimos?\s+(\d+)\s+días?|ultimos?\s+(\d+)\s+dias)\b`
(and the `próximos` analogue), returning `int(group(2) or group(3))`. -/
def findNDays (stem1 unit1 stem2 unit2 : String) (hay : List Char) : Option Nat :=
  (List.range (hay.length + 1)).findSome? fun i =>
    if boundaryBefore hay i then
      match nDaysAttempt hay i stem1 unit1 true with
      | some n => some n
      | none => nDaysAttempt hay i stem2 unit2 false
    else none

def findUltimosDias : List Char → Option Nat := findNDays "último" "día" "ultimo" "dia"

def findProximosDias : List Char → Option Nat := findNDays "próximo" "día" "proximo" "dia"

/-- `_parse_relative_periods`, in source order.  `última semana` computes
`end = today - (weekday(today)+1)` and `start = end - 6`; the month cases go
through `replace(day=1)` / `relativedelta(months=1)`. -/
def parseRelativePeriods (today : Int) (t : List Char) : Option DateRange :=
  if reWordAlt ["última semana", "ultima semana", "semana pasada"] t then
    let stop := today - (pyWeekday today + 1)
    some ⟨stop - 6, stop⟩
  else if reWordAlt ["próxima semana", "proxima semana", "siguiente semana"] t then
    let start := today + (7 - pyWeekday today)
    some ⟨start, start + 6⟩
  else if reWordAlt ["último mes", "ultimo mes", "mes pasado"] t then
    let stop := firstOfMonth today - 1
    some ⟨firstOfMonth stop, stop⟩
  else if reWordAlt ["próximo mes", "proximo mes", "siguiente mes"] t then
    let start := firstOfNextMonth today
    some ⟨start, firstOfNextMonth start - 1⟩
  else
    match findUltimosDias t with
    | some n => some ⟨today - ((n : Int) - 1), today⟩
    | none =>
      match findProximosDias t with
      | some n => some ⟨today, today + ((n : Int) - 1)⟩
      | none => none

/-- `DIAS_SEMANA` in dict insertion order. -/
def diasSemana : List (String × Int) :=
  [("lunes", 0), ("martes", 1), ("miércoles", 2), ("miercoles", 2),
   ("jueves", 3), ("viernes", 4), ("sábado", 5), ("sabado", 5), ("domingo", 6)]

/-- `_parse_weekday`: a plain substring test (`day_name in text`, no word
boundary); the next occurrence strictly after today. -/
def parseWeekday (today : Int) (t : List Char) : Option DateRange :=
  diasSemana.findSome? fun p =>
    if listHasSub t p.1.toList then
      let daysAhead := p.2 - pyWeekday today
      let daysAhead := if daysAhead ≤ 0 then daysAhead + 7 else daysAhead
      some (singleDay (today + daysAhead))
    else none

/-- `DateParser.parse_time_expression`: lower + strip, then the four stages
in order; any exception (the `fecha_texto` `ValueError`) is caught by the
outer `try` and yields `None`. -/
def parseTimeExpression (today : Int) (text : String) : Option DateRange :=
  let t := stripSpaces (lowerList text.toList)
  match parseSpecificExpressions today t with
  | some r => some r
  | none =>
    match parseSpecificDates today t with
    | .error _ => none
    | .ok (some r) => some r
    | .ok none =>
      match parseRelativePeriods today t with
      | some r => some r
      | none => parseWeekday today t

/-- `DateParser.get_current_season`: the fixed month → season mapping. -/
def getCurrentSeason (today : Int) : String :=
  let month := monthOfDay today
  if month = 12 ∨ month = 1 ∨ month = 2 ∨ month = 3 then "epoca_seca"
  else if month = 4 ∨ month = 5 then "inicio_lluvias"
  else if month = 6 ∨ month = 7 ∨ month = 8 ∨ month = 9 ∨ month = 10 then "epoca_lluviosa"
  else "transicion"

/-- English month names (`strftime %B` in the default C locale). -/
def monthNameEn (m : Int) : String :=
  if m = 1 then "January" else if m = 2 then "February" else if m = 3 then "March"
  else if m = 4 then "April" else if m = 5 then "May" else if m = 6 then "June"
  else if m = 7 then "July" else if m = 8 then "August" else if m = 9 then "September"
  else if m = 10 then "October" else if m = 11 then "November" else "December"

def pad2 (n : Int) : String :=
  if n < 10 then "0" ++ toString n else toString n

/-- `strftime("%d de %B de %Y")`. -/
def fmtDayMonthYear (z : Int) : String :=
  let c := civilFromDays z
  pad2 c.day ++ " de " ++ monthNameEn c.month ++ " de " ++ toString c.year

/-- `strftime("%d de %B")`. -/
def fmtDayMonth (z : Int) : String :=
  let c := civilFromDays z
  pad2 c.day ++ " de " ++ monthNameEn c.month

/-- `DateParser.format_date_range`. -/
def formatDateRange (start stop : Int) : String :=
  if start = stop then "el " ++ fmtDayMonthYear start
  else "del " ++ fmtDayMonth start ++ " al " ++ fmtDayMonthYear stop

end DateParser

/-! ## Intent classifier (`src/agent/nodes/classify.py`)

The keyword vocabularies and the priority if-chain of `classify_query`,
taken verbatim from the source. -/

namespace Classify

def currentStatusCues : List String :=
  ["actual", "ahora", "hoy", "temperatura", "humedad", "sensor"]

def climateHistoryCues : List String :=
  ["histórico", "historia", "último", "pasado", "semana", "mes"]

def recommendationsCues : List String :=
  ["recomendación", "consejo", "qué sembrar", "cultivo"]

def cropAdviceCues : List String :=
  ["arroz", "maíz", "yuca", "plátano", "cacao", "cítricos"]

/-- `any(word in query_lower for word in cues)`. -/
def anyCue (cues : List String) (queryLower : List Char) : Bool :=
  cues.any fun w => listHasSub queryLower w.toList

/-- The `query_type` decision of `classify_query` (the priority if-chain on
the lowered query). -/
def classifyType (query : String) : String :=
  let q := lowerList query.toList
  if anyCue currentStatusCues q then "current_status"
  else if anyCue climateHistoryCues q then "climate_history"
  else if anyCue recommendationsCues q then "recommendations"
  else if anyCue cropAdviceCues q then "crop_advice"
  else "general"

/-- `_extract_crop_mention`: a longer vocabulary than the `crop_advice` cue
list — it also carries the unaccented variants. -/
def cropsEntityList : List String :=
  ["arroz", "maíz", "maiz", "yuca", "plátano", "platano", "cacao",
   "cítricos", "citricos"]

def extractCropMention (query : String) : Option String :=
  let q := lowerList query.toList
  cropsEntityList.findSome? fun c => if listHasSub q c.toList then some c else none

def locationsList : List String :=
  ["aguazul", "yopal", "villanueva", "tauramena", "monterrey", "sabanalarga"]

def extractLocationMention (query : String) : Option String :=
  let q := lowerList query.toList
  locationsList.findSome? fun c => if listHasSub q c.toList then some c else none

def generalKeywords : List String :=
  ["información general", "suelo", "suelos", "riego", "fertilización",
   "fertilizacion", "malezas", "residuos", "prácticas", "plagas",
   "umbrales", "estrés", "estres"]

/-- The first matching general-info keyword, if any. -/
def generalInfoMatch (query : String) : Option String :=
  let q := lowerList query.toList
  generalKeywords.findSome? fun kw => if listHasSub q kw.toList then some kw else none

end Classify

/-! ## Telemetry records and numeric helpers

A telemetry record carries the columns produced by the sensor queries
(`src/database/queries.py`): `timestamp, temperature, humidity, sensor_id,
location, sensor_name, location_description`.  The rows never carry
`latitude`/`longitude` keys (the SELECTs do not project them), which the
coordinate filter of `get_current_readings.get_structured` relies on.
Timestamps are modelled at minute resolution: the analyzer only uses the
date (`dt.date`), the hour (`dt.hour`), the month (`dt.month`) and the sort
order. -/

structure Timestamp where
  day : Int
  hour : Nat
  minute : Nat
deriving DecidableEq, Repr

/-- Strict lexicographic order on timestamps (Python datetime comparison). -/
def tsLt (a b : Timestamp) : Bool :=
  a.day < b.day || (a.day == b.day &&
    (a.hour < b.hour || (a.hour == b.hour && a.minute < b.minute)))

structure Record where
  ts : Timestamp
  temperature : Option ℚ
  humidity : Option ℚ
  sensor_id : String
  location : String
  sensor_name : String
  location_description : String
deriving DecidableEq, Repr

inductive Metric
  | temperature
  | humidity
deriving DecidableEq, Repr

def Record.get (r : Record) : Metric → Option ℚ
  | .temperature => r.temperature
  | .humidity => r.humidity

/-- The column after `dropna`, in frame order. -/
def valsOf (recs : List Record) (m : Metric) : List ℚ :=
  recs.filterMap fun r => r.get m

def sumQ (l : List ℚ) : ℚ := l.foldl (· + ·) 0

def meanQ (l : List ℚ) : ℚ := sumQ l / (l.length : ℚ)

def meanOpt (l : List ℚ) : Option ℚ :=
  match l with
  | [] => none
  | _ => some (meanQ l)

def minOpt : List ℚ → Option ℚ
  | [] => none
  | h :: t => some (t.foldl min h)

def maxOpt : List ℚ → Option ℚ
  | [] => none
  | h :: t => some (t.foldl max h)

/-- Insertion of `a` into a list sorted by the strict relation `lt`: `a`
descends past strictly smaller elements only, so an element inserted from
further left stays before equal elements — the sort below is stable,
matching Python's stable sorts. -/
def insStable (lt : α → α → Bool) (a : α) : List α → List α
  | [] => [a]
  | b :: l => if lt b a then b :: insStable lt a l else a :: b :: l

/-- Stable ascending sort by the strict Boolean relation `lt` (a strict
total preorder in every use). -/
def stableSort (lt : α → α → Bool) (l : List α) : List α :=
  l.foldr (insStable lt) []

def sortQ (l : List ℚ) : List ℚ := stableSort (fun a b => decide (a < b)) l

/-- `pandas.Series.median`: middle element for odd length, average of the
two middle elements for even length. -/
def medianQ (l : List ℚ) : ℚ :=
  let s := sortQ l
  let n := s.length
  if n % 2 = 1 then s.getD (n / 2) 0
  else (s.getD (n / 2 - 1) 0 + s.getD (n / 2) 0) / 2

/-- The square of `pandas.Series.std` (`ddof = 1`): `none` models the `NaN`
produced for fewer than two values (0/0 for one value, empty mean for
none). -/
def stdSqOf (l : List ℚ) : Option ℚ :=
  if 2 ≤ l.length then
    some (sumQ (l.map fun x => (x - meanQ l) ^ 2) / ((l.length - 1 : ℕ) : ℚ))
  else none

/-- `np.percentile` with the default linear interpolation, on a non-empty
sample (the analyzer guards emptiness before calling it). -/
def percentileNp (vals : List ℚ) (p : ℚ) : ℚ :=
  let s := sortQ vals
  let n := s.length
  let h := p * ((n - 1 : ℕ) : ℚ) / 100
  let k := Int.toNat ⌊h⌋
  let lower := s.getD k 0
  let upper := s.getD (min (k + 1) (n - 1)) 0
  lower + (h - (⌊h⌋ : ℚ)) * (upper - lower)

/-- Sorted distinct keys (`pandas.groupby` sorts its group keys). -/
def insSortedKey [BEq α] (lt : α → α → Bool) (a : α) : List α → List α
  | [] => [a]
  | b :: l => if lt a b then a :: b :: l
              else if a == b then b :: l
              else b :: insSortedKey lt a l

def sortedKeys [BEq α] (lt : α → α → Bool) (l : List α) : List α :=
  l.foldl (fun acc x => insSortedKey lt x acc) []

def charListLt : List Char → List Char → Bool
  | [], [] => false
  | [], _ :: _ => true
  | _ :: _, [] => false
  | a :: as, b :: bs => a < b || (a == b && charListLt as bs)

def strLt (a b : String) : Bool := charListLt a.toList b.toList

/-- `Series.idxmax` over possibly-`NaN` values: index of the first maximum
among the non-`NaN` entries; `none` models the `ValueError` raised when all
entries are `NaN`. -/
def argmaxIdx (l : List (Option ℚ)) : Option Nat :=
  (l.enum.foldl
    (fun acc p =>
      match p.2 with
      | none => acc
      | some v =>
        match acc with
        | none => some (p.1, v)
        | some (i, b) => if v > b then some (p.1, v) else some (i, b))
    none).map Prod.fst

/-- `Series.idxmin`, symmetrically. -/
def argminIdx (l : List (Option ℚ)) : Option Nat :=
  (l.enum.foldl
    (fun acc p =>
      match p.2 with
      | none => acc
      | some v =>
        match acc with
        | none => some (p.1, v)
        | some (i, b) => if v < b then some (p.1, v) else some (i, b))
    none).map Prod.fst

/-- Max over the non-`NaN` entries (`Series.max` skips `NaN`); the default
is never exercised where this is used (an arg-max was found first). -/
def maxSomeD (l : List (Option ℚ)) : ℚ := (maxOpt (l.filterMap id)).getD 0

def minSomeD (l : List (Option ℚ)) : ℚ := (minOpt (l.filterMap id)).getD 0

/-! ## Crop knowledge base (`src/knowledge/casanare_crops.py`)

`CROPS_DATA` in dict insertion order.  Descriptive fields never read by the
pipeline (scientific name, planting seasons, water requirements, soil type,
notes) are omitted. -/

structure CropInfo where
  key : String
  name : String
  tmin : Int
  tmax : Int
  tideal : Int
  hmin : Int
  hmax : Int
  hideal : Int
  growth_period_days : Nat
  regenerative_practices : List String
deriving DecidableEq, Repr

namespace CasanareCrops

def cropsData : List CropInfo :=
  [ { key := "arroz", name := "Arroz", tmin := 20, tmax := 35, tideal := 28,
      hmin := 70, hmax := 85, hideal := 78, growth_period_days := 120,
      regenerative_practices :=
        ["Rotación con leguminosas", "Manejo integrado de plagas",
         "Uso de abonos orgánicos", "Sistema de riego eficiente"] },
    { key := "maiz", name := "Maíz", tmin := 15, tmax := 35, tideal := 25,
      hmin := 60, hmax := 80, hideal := 70, growth_period_days := 90,
      regenerative_practices :=
        ["Asociación con frijol", "Mulching con residuos", "Compostaje",
         "Control biológico de plagas"] },
    { key := "yuca", name := "Yuca", tmin := 20, tmax := 35, tideal := 27,
      hmin := 50, hmax := 80, hideal := 65, growth_period_days := 240,
      regenerative_practices :=
        ["Policultivo con frutales", "Abonos verdes", "Conservación de suelos",
         "Uso de residuos orgánicos"] },
    { key := "platano", name := "Plátano", tmin := 20, tmax := 35, tideal := 28,
      hmin := 70, hmax := 90, hideal := 80, growth_period_days := 365,
      regenerative_practices :=
        ["Sistemas agroforestales", "Mulching con hojas",
         "Compostaje de residuos", "Policultivo con cacao"] },
    { key := "cacao", name := "Cacao", tmin := 20, tmax := 32, tideal := 26,
      hmin := 75, hmax := 85, hideal := 80, growth_period_days := 1095,
      regenerative_practices :=
        ["Sistemas agroforestales", "Sombra con árboles nativos", "Compostaje",
         "Diversificación de cultivos"] },
    { key := "citricos", name := "Cítricos", tmin := 15, tmax := 35, tideal := 25,
      hmin := 60, hmax := 80, hideal := 70, growth_period_days := 1095,
      regenerative_practices :=
        ["Podas sanitarias", "Manejo integrado de plagas", "Abonos orgánicos",
         "Conservación de agua"] } ]

/-- `get_crop_info`: lower-case the name, then fold only `í → i` and
`ñ → n` (note: *not* `á`, so `plátano` never reaches the `platano` key). -/
def normalizeCropName (s : String) : String :=
  String.mk ((lowerList s.toList).map fun c =>
    if c = 'í' then 'i' else if c = 'ñ' then 'n' else c)

def getCropInfo (cropName : String) : Option CropInfo :=
  cropsData.find? fun c => c.key == normalizeCropName cropName

structure SuitEntry where
  crop : CropInfo
  suitability : String
  temp_match : ℚ
  humidity_match : ℚ
deriving DecidableEq, Repr

/-- `get_suitable_crops_for_conditions`: filter by range membership, tag
`óptimo` (inside both) or `aceptable` (inside exactly one), then a stable
sort by `temp_match + humidity_match`. -/
def getSuitableCrops (temperature humidity : ℚ) : List SuitEntry :=
  let entries := cropsData.filterMap fun c =>
    let tS := decide ((c.tmin : ℚ) ≤ temperature) && decide (temperature ≤ (c.tmax : ℚ))
    let hS := decide ((c.hmin : ℚ) ≤ humidity) && decide (humidity ≤ (c.hmax : ℚ))
    if tS && hS then
      some ⟨c, "óptimo", |temperature - (c.tideal : ℚ)|, |humidity - (c.hideal : ℚ)|⟩
    else if tS || hS then
      some ⟨c, "aceptable", |temperature - (c.tideal : ℚ)|, |humidity - (c.hideal : ℚ)|⟩
    else none
  stableSort (fun a b =>
    decide (a.temp_match + a.humidity_match < b.temp_match + b.humidity_match)) entries

/-- `AGRICULTURAL_CALENDAR` (the per-season entry). -/
structure SeasonInfo where
  months : List String
  characteristics : String
  recommendations : List String
deriving DecidableEq, Repr

def agriculturalCalendar : List (String × SeasonInfo) :=
  [ ("epoca_seca",
     { months := ["diciembre", "enero", "febrero", "marzo"],
       characteristics := "Baja precipitación, temperaturas altas",
       recommendations :=
         ["Preparación de suelos", "Siembra de cultivos resistentes a sequía",
          "Mantenimiento de sistemas de riego",
          "Cosecha de cultivos de temporada lluviosa"] }),
    ("inicio_lluvias",
     { months := ["abril", "mayo"],
       characteristics := "Incremento de precipitaciones",
       recommendations :=
         ["Siembra principal de arroz", "Siembra de maíz",
          "Preparación de almácigos", "Control de malezas",
          "Esperar la segundas lluvia fuerte para sembrar"] }),
    ("epoca_lluviosa",
     { months := ["junio", "julio", "agosto", "septiembre", "octubre"],
       characteristics := "Alta precipitación y humedad",
       recommendations :=
         ["Mantenimiento de cultivos", "Control de plagas y enfermedades",
          "Cosecha de cultivos de ciclo corto", "Siembra de segunda temporada"] }),
    ("transicion",
     { months := ["noviembre"],
       characteristics := "Disminución gradual de lluvias",
       recommendations :=
         ["Cosecha principal", "Preparación para época seca",
          "Almacenamiento de agua", "Planificación de próxima temporada"] }) ]

end CasanareCrops

/-! ## Climate analysis engine (`src/utils/climate_analyzer.py`) -/

namespace ClimateAnalyzer

/-- `_calculate_basic_stats` per metric; `none` models the
`{"error": "No hay datos válidos"}` dict produced for a metric with no
non-missing values (the `Columna no encontrada` branch is unreachable: every
record carries both columns).  The `std` field of the source is
`float(values.std())`; `stdSq` stores its square (see the header note). -/
structure BasicStat where
  mean : ℚ
  median : ℚ
  min : ℚ
  max : ℚ
  stdSq : Option ℚ
  count : Nat
deriving DecidableEq, Repr

def calcBasicStat (vals : List ℚ) : Option BasicStat :=
  match vals with
  | [] => none
  | h :: t =>
    some { mean := meanQ vals, median := medianQ vals,
           min := t.foldl min h, max := t.foldl max h,
           stdSq := stdSqOf vals, count := vals.length }

def basicStats (recs : List Record) : List (String × Option BasicStat) :=
  [("temperature", calcBasicStat (valsOf recs .temperature)),
   ("humidity", calcBasicStat (valsOf recs .humidity))]

/-- `_analyze_trends` per metric.  `np.polyfit(x, y, 1)` is the ordinary
least-squares line, written in closed form; `r_squared` is `none` when the
values are constant (`0/0` is `NaN` in numpy, no exception). -/
structure TrendStat where
  slope : ℚ
  trend_direction : String
  trend_strength : String
  r_squared : Option ℚ
  change_per_hour : ℚ
deriving DecidableEq, Repr

def trendFor (recs : List Record) (m : Metric) : Option TrendStat :=
  let sorted := stableSort (fun a b => tsLt a.ts b.ts) recs
  let ys := valsOf sorted m
  let n := ys.length
  if n ≤ 1 then none
  else
    let nn : ℚ := (n : ℚ)
    let xs : List ℚ := (List.range n).map fun i => (i : ℚ)
    let sx := sumQ xs
    let sy := sumQ ys
    let sxy := sumQ ((xs.zip ys).map fun p => p.1 * p.2)
    let sxx := sumQ (xs.map fun x => x * x)
    let slope := (nn * sxy - sx * sy) / (nn * sxx - sx * sx)
    let intercept := (sy - slope * sx) / nn
    let ssRes := sumQ ((xs.zip ys).map fun p => (p.2 - (slope * p.1 + intercept)) ^ 2)
    let ssTot := sumQ (ys.map fun y => (y - sy / nn) ^ 2)
    let rsq : Option ℚ := if ssTot = 0 then none else some (1 - ssRes / ssTot)
    some { slope := slope,
           trend_direction :=
             if slope > 1 / 100 then "increasing"
             else if slope < -(1 / 100) then "decreasing" else "stable",
           trend_strength :=
             match rsq with
             | none => "weak"
             | some r =>
               if |r| > 7 / 10 then "strong"
               else if |r| > 3 / 10 then "moderate" else "weak",
           r_squared := rsq,
           change_per_hour := slope * 60 }

def trends (recs : List Record) : List (String × Option TrendStat) :=
  [("temperature", trendFor recs .temperature),
   ("humidity", trendFor recs .humidity)]

/-- `_analyze_extremes` per metric. -/
structure ExtremeStat where
  p5 : ℚ
  p25 : ℚ
  p50 : ℚ
  p75 : ℚ
  p95 : ℚ
  outliers_count : Nat
  outliers_percentage : ℚ
  outliers_values : List ℚ
  high_count : Nat
  low_count : Nat
  high_values : List ℚ
  low_values : List ℚ
deriving DecidableEq, Repr

def extremeFor (vals : List ℚ) : Option ExtremeStat :=
  match vals with
  | [] => none
  | _ =>
    let p5 := percentileNp vals 5
    let p25 := percentileNp vals 25
    let p50 := percentileNp vals 50
    let p75 := percentileNp vals 75
    let p95 := percentileNp vals 95
    let iqr := p75 - p25
    let lb := p25 - 3 / 2 * iqr
    let ub := p75 + 3 / 2 * iqr
    let outliers := vals.filter fun v => decide (v < lb) || decide (v > ub)
    let high := vals.filter fun v => decide (v ≥ p95)
    let low := vals.filter fun v => decide (v ≤ p5)
    some { p5 := p5, p25 := p25, p50 := p50, p75 := p75, p95 := p95,
           outliers_count := outliers.length,
           outliers_percentage := (outliers.length : ℚ) / (vals.length : ℚ) * 100,
           outliers_values := outliers.take 10,
           high_count := high.length, low_count := low.length,
           high_values := high.take 5, low_values := low.take 5 }

def extremes (recs : List Record) : List (String × Option ExtremeStat) :=
  [("temperature", extremeFor (valsOf recs .temperature)),
   ("humidity", extremeFor (valsOf recs .humidity))]

/-- `overall_cv = df[m].std() / df[m].mean() if df[m].mean() != 0 else 0`.
`zero` is the literal `0` taken when the mean is zero; `nan` covers a `NaN`
mean (`NaN != 0` is true, and `NaN` divided by anything stays `NaN`) and a
`NaN` std; `val s m` is `sqrt s / m`. -/
inductive CV
  | nan
  | zero
  | val (stdSq mean : ℚ)
deriving DecidableEq, Repr

def mkCV (stdSq mean : Option ℚ) : CV :=
  match mean with
  | none => .nan
  | some mv =>
    if mv = 0 then .zero
    else
      match stdSq with
      | none => .nan
      | some s => .val s mv

/-- `cv > t` for a positive literal threshold `t` (`0.3` and `0.1` in the
source): false for `NaN` and for `cv = 0`; for `sqrt s / m` with `m > 0` it
is `s > t² m²` (square root is strictly monotone), and with `m < 0` the
quotient is nonpositive, hence below `t`. -/
def cvGtPos (c : CV) (t : ℚ) : Bool :=
  match c with
  | .nan => false
  | .zero => false
  | .val s m => decide (0 < m) && decide (t ^ 2 * m ^ 2 < s)

def hoursOf (recs : List Record) : List Nat :=
  sortedKeys (fun a b => decide (a < b)) (recs.map fun r => r.ts.hour)

def daysOf (recs : List Record) : List Int :=
  sortedKeys (fun a b => decide (a < b)) (recs.map fun r => r.ts.day)

/-- `_analyze_variability` per metric; `max_stdSq`/`min_stdSq` store the
squares of the reported hourly standard deviations.  The `Except` layer
models the `ValueError` that `idxmax`/`idxmin` raise when every group
aggregate is `NaN` (every hour group has fewer than two non-missing values,
or every day group has none). -/
structure VarStat where
  coefficient_of_variation : CV
  variability_level : String
  hour_with_max_variability : Nat
  hour_with_min_variability : Nat
  max_stdSq : ℚ
  min_stdSq : ℚ
  day_with_max_range : Int
  max_daily_range : ℚ
  avg_daily_range : ℚ
deriving DecidableEq, Repr

def dailyRange (recs : List Record) (m : Metric) (d : Int) : Option ℚ :=
  let vals := valsOf (recs.filter fun r => r.ts.day == d) m
  match minOpt vals, maxOpt vals with
  | some a, some b => some (b - a)
  | _, _ => none

def variabilityFor (recs : List Record) (m : Metric) : Except Unit VarStat :=
  let hours := hoursOf recs
  let hourlyStd : List (Option ℚ) :=
    hours.map fun h => stdSqOf (valsOf (recs.filter fun r => r.ts.hour == h) m)
  match argmaxIdx hourlyStd with
  | none => .error ()
  | some iMax =>
    match argminIdx hourlyStd with
    | none => .error ()
    | some iMin =>
      let days := daysOf recs
      let ranges : List (Option ℚ) := days.map (dailyRange recs m)
      match argmaxIdx ranges with
      | none => .error ()
      | some iR =>
        let allVals := valsOf recs m
        let cv := mkCV (stdSqOf allVals) (meanOpt allVals)
        .ok { coefficient_of_variation := cv,
              variability_level :=
                if cvGtPos cv (3 / 10) then "high"
                else if cvGtPos cv (1 / 10) then "moderate" else "low",
              hour_with_max_variability := hours.getD iMax 0,
              hour_with_min_variability := hours.getD iMin 0,
              max_stdSq := maxSomeD hourlyStd,
              min_stdSq := minSomeD hourlyStd,
              day_with_max_range := days.getD iR 0,
              max_daily_range := maxSomeD ranges,
              avg_daily_range := meanQ (ranges.filterMap id) }

def variabilityAll (recs : List Record) : Except Unit (List (String × VarStat)) := do
  let t ← variabilityFor recs .temperature
  let h ← variabilityFor recs .humidity
  return [("temperature", t), ("humidity", h)]

/-- `_analyze_agricultural_conditions`.  The missing-column branch is
unreachable here; `err` models the `{"error": …}` dicts. -/
structure CropCondition where
  name : String
  suitability : String
  temp_optimal_percentage : ℚ
  humidity_optimal_percentage : ℚ
  overall_optimal_percentage : ℚ
  recommendations : List String
deriving DecidableEq, Repr

inductive AgriAnalysis
  | err (msg : String)
  | ok (avgTemp avgHum : ℚ) (suitable : List CasanareCrops.SuitEntry)
      (conds : List CropCondition) (overall : String)
deriving DecidableEq, Repr

/-- `((values >= lo) & (values <= hi)).mean() * 100`. -/
def pctInRange (vals : List ℚ) (lo hi : Int) : ℚ :=
  ((vals.filter fun v => decide ((lo : ℚ) ≤ v) && decide (v ≤ (hi : ℚ))).length : ℚ)
    / (vals.length : ℚ) * 100

def assessOverallConditions (avgTemp avgHum : ℚ) : String :=
  if avgTemp < 15 ∨ avgTemp > 40 then "desfavorable"
  else if avgHum < 40 ∨ avgHum > 95 then "desfavorable"
  else if 20 ≤ avgTemp ∧ avgTemp ≤ 35 ∧ 60 ≤ avgHum ∧ avgHum ≤ 85 then "excelente"
  else "aceptable"

def agriculturalAnalysis (recs : List Record) : AgriAnalysis :=
  let temps := valsOf recs .temperature
  let hums := valsOf recs .humidity
  if temps.isEmpty || hums.isEmpty then .err "Datos insuficientes"
  else
    let avgTemp := meanQ temps
    let avgHum := meanQ hums
    let suitable := CasanareCrops.getSuitableCrops avgTemp avgHum
    let top5 := suitable.take 5
    let conds := top5.map fun e =>
      let tp := pctInRange temps e.crop.tmin e.crop.tmax
      let hp := pctInRange hums e.crop.hmin e.crop.hmax
      { name := e.crop.name, suitability := e.suitability,
        temp_optimal_percentage := tp, humidity_optimal_percentage := hp,
        overall_optimal_percentage := (tp + hp) / 2,
        recommendations := e.crop.regenerative_practices }
    .ok avgTemp avgHum top5 conds (assessOverallConditions avgTemp avgHum)

/-- `_get_season` of the analyzer (the same month buckets as the date
parser's `get_current_season`). -/
def getSeason (month : Int) : String :=
  if month = 12 ∨ month = 1 ∨ month = 2 ∨ month = 3 then "epoca_seca"
  else if month = 4 ∨ month = 5 then "inicio_lluvias"
  else if month = 6 ∨ month = 7 ∨ month = 8 ∨ month = 9 ∨ month = 10 then "epoca_lluviosa"
  else "transicion"

def seasonOfRecord (r : Record) : String := getSeason (monthOfDay r.ts.day)

/-- Per-group `agg(['mean','std','min','max'])` values (each `NaN` when the
group has no, or for `std` fewer than two, non-missing values). -/
structure MStats where
  mean : Option ℚ
  stdSq : Option ℚ
  min : Option ℚ
  max : Option ℚ
deriving DecidableEq, Repr

def mStatsOf (vals : List ℚ) : MStats :=
  { mean := meanOpt vals, stdSq := stdSqOf vals,
    min := minOpt vals, max := maxOpt vals }

def seasonsOf (recs : List Record) : List String :=
  sortedKeys strLt (recs.map seasonOfRecord)

def seasonalStatsFor (recs : List Record) (m : Metric) : List (String × MStats) :=
  (seasonsOf recs).map fun s =>
    (s, mStatsOf (valsOf (recs.filter fun r => seasonOfRecord r == s) m))

/-- `_get_casanare_seasonal_patterns` (mean, std, min, max per metric). -/
structure PatternStats where
  mean : Int
  std : Int
  min : Int
  max : Int
deriving DecidableEq, Repr

def casanarePatterns : List (String × PatternStats × PatternStats) :=
  [ ("epoca_seca", ⟨32, 3, 25, 38⟩, ⟨65, 10, 45, 80⟩),
    ("inicio_lluvias", ⟨30, 2, 24, 35⟩, ⟨75, 8, 60, 85⟩),
    ("epoca_lluviosa", ⟨28, 2, 22, 32⟩, ⟨85, 5, 75, 95⟩),
    ("transicion", ⟨29, 3, 23, 34⟩, ⟨75, 10, 60, 85⟩) ]

/-- One row of `_compare_with_casanare_patterns`; a `NaN` actual mean gives
`NaN` deviations and status `normal` (both `NaN > 0` and `NaN < 0` are
false). -/
structure SeasonCompare where
  season : String
  actual_mean : Option ℚ
  expected_mean : ℚ
  deviation : Option ℚ
  deviation_percent : Option ℚ
  status : String
deriving DecidableEq, Repr

def compareRow (season : String) (actual : Option ℚ) (expected : ℚ) : SeasonCompare :=
  let dev := actual.map fun a => a - expected
  { season := season, actual_mean := actual, expected_mean := expected,
    deviation := dev,
    deviation_percent := dev.map fun d => d / expected * 100,
    status :=
      match dev with
      | none => "normal"
      | some d => if d > 0 then "above_normal"
                  else if d < 0 then "below_normal" else "normal" }

def seasonComparisonFor (stats : List (String × MStats)) (pick : PatternStats × PatternStats → PatternStats) :
    List SeasonCompare :=
  stats.filterMap fun p =>
    (List.lookup p.1 casanarePatterns).map fun pat =>
      compareRow p.1 p.2.mean ((pick pat).mean : ℚ)

structure SeasonAnalysis where
  temperature_stats : List (String × MStats)
  humidity_stats : List (String × MStats)
  temperature_comparison : List SeasonCompare
  humidity_comparison : List SeasonCompare
deriving DecidableEq, Repr

/-- `_analyze_seasonal_patterns` (the constant `casanare_patterns` table is
also part of the returned dict; it is the constant `casanarePatterns`
above). -/
def seasonalAnalysis (recs : List Record) : SeasonAnalysis :=
  let ts := seasonalStatsFor recs .temperature
  let hs := seasonalStatsFor recs .humidity
  { temperature_stats := ts, humidity_stats := hs,
    temperature_comparison := seasonComparisonFor ts Prod.fst,
    humidity_comparison := seasonComparisonFor hs Prod.snd }

/-- `_assess_data_quality` issues; the numeric parameters of each message
string are carried structurally. -/
inductive Issue
  | noData
  | manyMissing (col : String) (pct : ℚ)
  | tempOutOfRange (n : Nat)
  | humOutOfRange (n : Nat)
deriving DecidableEq, Repr

/-- `total_records` and `completeness` are absent from the zero-record
result dict (`none` here).  By the time `_assess_data_quality` runs, the
earlier sub-analyses have added the `hour`, `day`, `month` and `season`
columns to the frame, so completeness divides by 11 columns; only the two
metric columns can hold missing values. -/
structure DataQuality where
  quality : String
  total_records : Option Nat
  issues : List Issue
  completeness : Option ℚ
deriving DecidableEq, Repr

def missingCount (recs : List Record) (m : Metric) : Nat :=
  (recs.filter fun r => (r.get m).isNone).length

def assessDataQuality (recs : List Record) : DataQuality :=
  let total := recs.length
  if total = 0 then
    { quality := "poor", total_records := none, issues := [.noData], completeness := none }
  else
    let missT := missingCount recs .temperature
    let missH := missingCount recs .humidity
    let pctT : ℚ := (missT : ℚ) / (total : ℚ) * 100
    let pctH : ℚ := (missH : ℚ) / (total : ℚ) * 100
    let i1 : List Issue := if pctT > 20 then [.manyMissing "temperature" pctT] else []
    let i2 : List Issue := if pctH > 20 then [.manyMissing "humidity" pctH] else []
    let tOut := ((valsOf recs .temperature).filter fun v => decide (v < -10) || decide (v > 50)).length
    let hOut := ((valsOf recs .humidity).filter fun v => decide (v < 0) || decide (v > 100)).length
    let i3 : List Issue := if tOut > 0 then [.tempOutOfRange tOut] else []
    let i4 : List Issue := if hOut > 0 then [.humOutOfRange hOut] else []
    let issues := i1 ++ i2 ++ i3 ++ i4
    { quality :=
        if issues.length = 0 then "excellent"
        else if issues.length ≤ 2 then "good"
        else if issues.length ≤ 4 then "fair" else "poor",
      total_records := some total,
      issues := issues,
      completeness := some (((total * 11 - (missT + missH) : ℕ) : ℚ) / ((total * 11 : ℕ) : ℚ) * 100) }

/-- The analysis result dict (`analysis_timestamp`, a wall-clock reading,
is not modelled). -/
structure Analysis where
  basic_stats : List (String × Option BasicStat)
  trends : List (String × Option TrendStat)
  extremes : List (String × Option ExtremeStat)
  variability : List (String × VarStat)
  agricultural_analysis : AgriAnalysis
  season_analysis : Option SeasonAnalysis
  data_quality : DataQuality
deriving DecidableEq, Repr

/-- `_empty_analysis`. -/
def emptyAnalysis : Analysis :=
  { basic_stats := [], trends := [], extremes := [], variability := [],
    agricultural_analysis := .err "No hay datos para analizar",
    season_analysis := none,
    data_quality := { quality := "poor", total_records := none,
                      issues := [.noData], completeness := none } }

/-- The `try` body of `analyze_climate_data` on a non-empty batch.  Of the
sub-analyses only `_analyze_variability` can raise on well-typed records
(its `idxmax`/`idxmin` over all-`NaN` aggregates); the others are total, so
the single fallible step is matched first — the result is identical to the
source's sequential order. -/
def analyzeBody (recs : List Record) : Except Unit Analysis :=
  match variabilityAll recs with
  | .error e => .error e
  | .ok va =>
    .ok { basic_stats := basicStats recs,
          trends := trends recs,
          extremes := extremes recs,
          variability := va,
          agricultural_analysis := agriculturalAnalysis recs,
          season_analysis := some (seasonalAnalysis recs),
          data_quality := assessDataQuality recs }

/-- `ClimateAnalyzer.analyze_climate_data`: empty input short-circuits to
`_empty_analysis`; any exception in the body is caught and also yields
`_empty_analysis`. -/
def analyzeClimateData (recs : List Record) : Analysis :=
  match recs with
  | [] => emptyAnalysis
  | _ :: _ =>
    match analyzeBody recs with
    | .ok a => a
    | .error _ => emptyAnalysis

/-- `get_climate_recommendations`. -/
def getClimateRecommendations (a : Analysis) : List String :=
  match a.agricultural_analysis with
  | .err _ => ["Se necesitan más datos climáticos para generar recomendaciones específicas"]
  | .ok avgTemp avgHum suitable _ _ =>
    let l1 : List String :=
      if avgTemp > 35 then
        ["Las temperaturas están altas. Considerar riego adicional y sombra para cultivos sensibles"]
      else if avgTemp < 20 then
        ["Las temperaturas están bajas. Considerar cultivos resistentes al frío o protección térmica"]
      else []
    let l2 : List String :=
      if avgHum > 90 then
        ["La humedad está muy alta. Vigilar enfermedades fúngicas y mejorar ventilación"]
      else if avgHum < 50 then
        ["La humedad está baja. Considerar riego más frecuente y mulching"]
      else []
    let l3 : List String :=
      match suitable with
      | [] => []
      | c :: _ => ["El cultivo más adecuado para las condiciones actuales es " ++ c.crop.name]
    let l4 : List String :=
      match List.lookup "temperature" a.variability with
      | some v =>
        if v.variability_level == "high" then
          ["Hay alta variabilidad en temperatura. Considerar cultivos resistentes a cambios bruscos"]
        else []
      | none => []
    l1 ++ l2 ++ l3 ++ l4

end ClimateAnalyzer

/-! ## General agronomic knowledge (`src/knowledge/agriculture_data.py`)

Only the stress thresholds are read structurally by the pipeline; the other
tables reach the output exclusively through Python's `str(...)` repr inside
`get_general_agriculture_info`, which the pipeline concatenates into
`final_answer` as opaque text.  Those repr strings are long and never
inspected, so they are represented by stable descriptive constants. -/

namespace AgricultureData

def stressTempLow : ℚ := 15

def stressTempHigh : ℚ := 35

def stressHumLow : ℚ := 40

def stressHumHigh : ℚ := 90

def soilTypesRepr : String := "(repr de SOIL_TYPES)"

def irrigationMethodsRepr : String := "(repr de IRRIGATION_METHODS)"

def fertilizationGuideRepr : String := "(repr de FERTILIZATION_GUIDE)"

def weedManagementRepr : String := "(repr de WEED_MANAGEMENT)"

def residueManagementRepr : String := "(repr de RESIDUE_MANAGEMENT)"

def universalPracticesRepr : String := "(repr de UNIVERSAL_PRACTICES)"

def commonPestsRepr : String := "(repr de COMMON_PESTS)"

/-- `GetGeneralAgricultureInfoTool._run(category, value=None)` — the
response node always passes `value=None`, so only the whole-table branches
are reachable. -/
def getGeneralAgricultureInfo (category : String) : String :=
  if category == "suelo" || category == "suelos" then soilTypesRepr
  else if category == "riego" then irrigationMethodsRepr
  else if category == "fertilización" || category == "fertilizacion" then fertilizationGuideRepr
  else if category == "malezas" then weedManagementRepr
  else if category == "residuos" then residueManagementRepr
  else if category == "prácticas" || category == "practicas" then universalPracticesRepr
  else if category == "plagas" then commonPestsRepr
  else "Categoría no reconocida. Usa: suelo, riego, fertilización, malezas, residuos, prácticas, plagas."

end AgricultureData

/-! ## Numeric display helpers

Python renders floats into the answer templates with `"{:.1f}"` /
`"{:.2f}"`.  These helpers reproduce that display (round half to even on
the exact rational; the binary-float representation error of CPython's
formatting is not modelled — no theorem compares these strings). -/

def roundHalfEven (q : ℚ) : Int :=
  let f := ⌊q⌋
  let r := q - (f : ℚ)
  if r < 1 / 2 then f
  else if r > 1 / 2 then f + 1
  else if f % 2 = 0 then f else f + 1

def fmt1 (q : ℚ) : String :=
  let n := roundHalfEven (q * 10)
  let sign := if n < 0 then "-" else ""
  let a := n.natAbs
  sign ++ toString (a / 10) ++ "." ++ toString (a % 10)

def fmt2 (q : ℚ) : String :=
  let n := roundHalfEven (q * 100)
  let sign := if n < 0 then "-" else ""
  let a := n.natAbs
  sign ++ toString (a / 100) ++ "." ++
    (if a % 100 < 10 then "0" ++ toString (a % 100) else toString (a % 100))

/-- `⌊√a⌋` for a nonnegative rational. -/
def isqrtFloorQ (a : ℚ) : Nat := Nat.sqrt (Int.toNat ⌊a⌋)

/-- `round(10·√s)` (half to even), used to display a standard deviation
stored as its square. -/
def roundSqrt10 (s : ℚ) : Nat :=
  let a := 100 * s
  let k := isqrtFloorQ a
  let mid : ℚ := (((2 * k + 1) ^ 2 : ℕ) : ℚ) / 4
  if a < mid then k
  else if a > mid then k + 1
  else if k % 2 = 0 then k else k + 1

/-- `"{:.1f}"` of the standard deviation `√s`; `NaN` prints as `nan`. -/
def fmtStd1 : Option ℚ → String
  | none => "nan"
  | some s =>
    let n := roundSqrt10 s
    toString (n / 10) ++ "." ++ toString (n % 10)

def fmtOpt2 : Option ℚ → String
  | none => "nan"
  | some q => fmt2 q

/-! ## Telemetry tools (`src/database/queries.py`, `src/agent/tools`) -/

namespace Queries

/-- One attempt of the float pattern (optional minus sign, digits, a dot,
digits) at position `i`; returns the exact decimal value and the end
position. -/
def floatAttempt (hay : List Char) (i : Nat) : Option (ℚ × Nat) :=
  let neg := hay.getD i ' ' == '-'
  let j := if neg then i + 1 else i
  let d1 := digitRunLen hay j
  if d1 == 0 then none
  else if hay.getD (j + d1) ' ' == '.' then
    let d2 := digitRunLen hay (j + d1 + 1)
    if d2 == 0 then none
    else
      let ip := digitsVal ((hay.drop j).take d1)
      let fp := digitsVal ((hay.drop (j + d1 + 1)).take d2)
      let v : ℚ := (ip : ℚ) + (fp : ℚ) / ((10 ^ d2 : ℕ) : ℚ)
      some (if neg then -v else v, j + d1 + 1 + d2)
  else none

/-- `re.search` of the coordinate pattern (float, optional spaces, a comma,
optional spaces, float). -/
def coordsSearch (hay : List Char) : Option (ℚ × ℚ) :=
  (List.range (hay.length + 1)).findSome? fun i =>
    match floatAttempt hay i with
    | none => none
    | some (lat, j) =>
      let j2 := j + spaceRunLen hay j
      if hay.getD j2 ' ' == ',' then
        let j3 := j2 + 1 + spaceRunLen hay (j2 + 1)
        match floatAttempt hay j3 with
        | some (lon, _) => some (lat, lon)
        | none => none
      else none

def notPunct (c : Char) : Bool :=
  !(c == '.' || c == ',' || c == ';' || c == '!' || c == '?')

/-- `re.search` (case-insensitive) of `en`-or-`de`, one or more spaces, then
a maximal run free of sentence punctuation.  When the text ends right after
the spaces, the regex backtracks one space out of `\s+` into the captured
group, yielding a single-space group. -/
def locSearch (hay : List Char) : Option (List Char) :=
  (List.range hay.length).findSome? fun i =>
    let c0 := lowerChar (hay.getD i '*')
    let c1 := lowerChar (hay.getD (i + 1) '*')
    if (c0 == 'e' && c1 == 'n') || (c0 == 'd' && c1 == 'e') then
      let k := spaceRunLen hay (i + 2)
      if k == 0 then none
      else
        let rest := (hay.drop (i + 2 + k)).takeWhile notPunct
        if rest.isEmpty then
          if k ≥ 2 then some [' '] else none
        else some rest
    else none

inductive LocFilter
  | coords (lat lon : ℚ)
  | location (loc : String)
  | nofilter
deriving DecidableEq, Repr

/-- `extract_location_or_coords`: coordinates first, then the location
phrase (stripped; the trailing-punctuation cleanup is a no-op because the
captured group already excludes those characters). -/
def extractLocationOrCoords (query : String) : LocFilter :=
  match coordsSearch query.toList with
  | some (lat, lon) => .coords lat lon
  | none =>
    match locSearch query.toList with
    | some g => .location (String.mk (stripSpaces g))
    | none => .nofilter

end Queries

/-- The external telemetry store and the clock: the collaborators of the
pipeline (§6 of the spec).  `historicalData` is the range query
`get_historical_data(start, end, location)`. -/
structure Env where
  today : Int
  currentReadings : List Record
  historicalData : DateRange → Option String → List Record

/-- `GetCurrentReadingsTool.get_structured`.  On the coordinate branch the
rows coming from `get_current_readings` never carry `latitude`/`longitude`
keys (the SELECT does not project them), so `is_near` is always false and
the filter empties the list. -/
def getCurrentReadingsStructured (env : Env) (query : String) : List Record :=
  let readings := env.currentReadings
  match Queries.extractLocationOrCoords query with
  | .coords _ _ => readings.filter fun _ => false
  | .location loc =>
    let l := lowerList loc.toList
    readings.filter fun r =>
      listHasSub (lowerList r.location.toList) l ||
        listHasSub (lowerList r.location_description.toList) l
  | .nofilter => readings

/-- `GetHistoricalDataTool.get_structured`: re-parse the given time
expression; an unparseable expression yields the empty list. -/
def getHistoricalStructured (env : Env) (timeExpression : String)
    (location : Option String) : List Record :=
  match DateParser.parseTimeExpression env.today timeExpression with
  | none => []
  | some r => env.historicalData r location

/-! ## Shared query state (`src/agent/core/state.py`)

The `AgricultureState` TypedDict.  The keys `general_info_requested`,
`general_info_category`, `suggest_general_info` and `suggested_category`
are not present in `create_initial_state` and are only read through
`state.get(...)`; an absent key reads as false / the empty string here.
The wall-clock `timestamp` field is not modelled. -/

structure AgricultureState where
  user_query : String
  user_location : String
  query_type : String
  time_period : Option DateRange
  crop_mentioned : Option String
  location_mentioned : Option String
  sensor_data : List Record
  climate_summary : Option ClimateAnalyzer.Analysis
  crop_requirements : Option CropInfo
  season_info : Option CasanareCrops.SeasonInfo
  recommendations : List String
  final_answer : String
  confidence : ℚ
  needs_data_query : Bool
  needs_crop_analysis : Bool
  needs_clarification : Bool
  error_message : Option String
  processing_steps : List String
  general_info_requested : Bool
  general_info_category : String
  suggest_general_info : Bool
  suggested_category : String

def createInitialState (userQuery : String) : AgricultureState :=
  { user_query := userQuery,
    user_location := "El Guineo, Aguazul, Casanare, Colombia",
    query_type := "", time_period := none, crop_mentioned := none,
    location_mentioned := none, sensor_data := [], climate_summary := none,
    crop_requirements := none, season_info := none, recommendations := [],
    final_answer := "", confidence := 0, needs_data_query := false,
    needs_crop_analysis := false, needs_clarification := false,
    error_message := none, processing_steps := [],
    general_info_requested := false, general_info_category := "",
    suggest_general_info := false, suggested_category := "" }

/-! ## Pipeline nodes (`src/agent/nodes`)

Each node is a total state transformer: in this model no embedded operation
raises, so each node's `try/except` wrapper (which would set
`error_message`) has an unreachable handler; the error-stickiness theorems
quantify over arbitrary states with `error_message` set, covering every
fault the handlers could record. -/

namespace Nodes

/-- `classify_query` (`nodes/classify.py`). -/
def classify_query (env : Env) (st : AgricultureState) : AgricultureState :=
  let st :=
    { st with
      query_type := Classify.classifyType st.user_query,
      time_period := DateParser.parseTimeExpression env.today st.user_query,
      crop_mentioned := Classify.extractCropMention st.user_query,
      location_mentioned := Classify.extractLocationMention st.user_query,
      processing_steps := st.processing_steps ++ ["query_classified"] }
  match Classify.generalInfoMatch st.user_query with
  | some kw => { st with general_info_requested := true, general_info_category := kw }
  | none => st

/-- `_extract_time_expression` (`nodes/fetch_sensor.py`): the first keyword
of the fixed list found in the lowered query, with the default
`última semana`. -/
def extractTimeExpression (query : String) : String :=
  let q := lowerList query.toList
  let keywords : List String :=
    ["ayer", "hoy", "mañana", "última semana", "ultima semana",
     "próxima semana", "proxima semana", "último mes", "ultimo mes",
     "últimos días", "ultimos dias", "próximos días", "proximos dias"]
  (keywords.findSome? fun kw =>
    if listHasSub q kw.toList then some kw else none).getD "última semana"

/-- `fetch_sensor_data` (`nodes/fetch_sensor.py`).  Note the
`climate_history` branch re-extracts a time expression from the raw query
instead of using the classifier's `time_period` (which only gates the
branch). -/
def fetch_sensor_data (env : Env) (st : AgricultureState) : AgricultureState :=
  let st :=
    if st.query_type == "current_status" then
      { st with sensor_data := getCurrentReadingsStructured env st.user_query }
    else if st.query_type == "climate_history" && st.time_period.isSome then
      let data := getHistoricalStructured env (extractTimeExpression st.user_query) st.location_mentioned
      { st with sensor_data := data }
    else if st.query_type == "recommendations" || st.query_type == "crop_advice" then
      { st with sensor_data := getCurrentReadingsStructured env "condiciones actuales" }
    else st
  { st with processing_steps := st.processing_steps ++ ["sensor_data_fetched"] }

/-- `analyze_climate_data` (`nodes/analyze.py`): run the analysis engine,
record the stress flag against the fixed thresholds, extend the
recommendations. -/
def analyze_climate_data (st : AgricultureState) : AgricultureState :=
  let st :=
    match st.sensor_data with
    | [] => st
    | _ =>
      let analysis := ClimateAnalyzer.analyzeClimateData st.sensor_data
      let st := { st with climate_summary := some analysis }
      let avgT : Option ℚ :=
        match List.lookup "temperature" analysis.basic_stats with
        | some (some bs) => some bs.mean
        | _ => none
      let avgH : Option ℚ :=
        match List.lookup "humidity" analysis.basic_stats with
        | some (some bs) => some bs.mean
        | _ => none
      let st :=
        match avgT with
        | some t =>
          if t < AgricultureData.stressTempLow ∨ t > AgricultureData.stressTempHigh then
            { st with suggest_general_info := true, suggested_category := "umbrales" }
          else st
        | none => st
      let st :=
        match avgH with
        | some h =>
          if h < AgricultureData.stressHumLow ∨ h > AgricultureData.stressHumHigh then
            { st with suggest_general_info := true, suggested_category := "umbrales" }
          else st
        | none => st
      { st with recommendations :=
          st.recommendations ++ ClimateAnalyzer.getClimateRecommendations analysis }
  { st with processing_steps := st.processing_steps ++ ["climate_analyzed"] }

/-- `get_crop_recommendations` (`nodes/recommendations.py`).  The
`get_crop_info` / `get_seasonal_recommendations` tool `_run` calls are made
only for their string result, which the node discards; the structural
updates come from the static knowledge base. -/
def get_crop_recommendations (env : Env) (st : AgricultureState) : AgricultureState :=
  let st :=
    match st.query_type, st.crop_mentioned with
    | "crop_advice", some crop =>
      (match CasanareCrops.getCropInfo crop with
       | some ci =>
         { st with crop_requirements := some ci,
                   recommendations := st.recommendations ++ ci.regenerative_practices }
       | none => st)
    | "recommendations", _ =>
      let info := List.lookup (DateParser.getCurrentSeason env.today) CasanareCrops.agriculturalCalendar
      { st with season_info := info }
    | _, _ => st
  { st with processing_steps := st.processing_steps ++ ["crop_recommendations_generated"] }

end Nodes

/-! ## Response generation (`src/agent/nodes/response.py`) -/

namespace Nodes

def titleMetric (m : String) : String :=
  if m == "temperature" then "Temperature"
  else if m == "humidity" then "Humidity" else m

def renderIssue : ClimateAnalyzer.Issue → String
  | .noData => "No hay datos"
  | .manyMissing col pct => "Muchos valores faltantes en " ++ col ++ ": " ++ fmt1 pct ++ "%"
  | .tempOutOfRange n => "Valores de temperatura fuera de rango: " ++ toString n ++ " registros"
  | .humOutOfRange n => "Valores de humedad fuera de rango: " ++ toString n ++ " registros"

/-- `_format_climate_analysis`. -/
def formatClimateAnalysis (a : ClimateAnalyzer.Analysis) : String :=
  let basicLines := ["temperature", "humidity"].filterMap fun m =>
    match List.lookup m a.basic_stats with
    | some (some bs) =>
      some ("• " ++ titleMetric m ++ ": Promedio " ++ fmt1 bs.mean ++ ", Mín " ++
        fmt1 bs.min ++ ", Máx " ++ fmt1 bs.max ++ ", Desv. " ++ fmtStd1 bs.stdSq)
    | _ => none
  let trendLines := ["temperature", "humidity"].filterMap fun m =>
    match List.lookup m a.trends with
    | some (some t) =>
      some ("• Tendencia de " ++ m ++ ": " ++ t.trend_direction ++ " (R²=" ++
        fmtOpt2 t.r_squared ++ ")")
    | _ => none
  let extremeLines := ["temperature", "humidity"].filterMap fun m =>
    match List.lookup m a.extremes with
    | some (some e) =>
      some ("• Eventos extremos de " ++ m ++ ": Altos " ++ toString e.high_count ++
        ", Bajos " ++ toString e.low_count)
    | _ => none
  let cropLines :=
    match a.agricultural_analysis with
    | .ok _ _ (c :: cs) _ _ =>
      ["• Cultivos recomendados: " ++
        String.intercalate ", " (((c :: cs).take 3).map fun e => e.crop.name)]
    | _ => []
  let dqLines :=
    ["• Calidad de datos: " ++ a.data_quality.quality] ++
      (match a.data_quality.issues with
       | [] => []
       | issues => ["  Problemas: " ++ String.intercalate ", " (issues.map renderIssue)])
  String.intercalate "\n" (basicLines ++ trendLines ++ extremeLines ++ cropLines ++ dqLines)

def statusResponse (st : AgricultureState) : String :=
  let r := "🌤️ **Estado Climático Actual:**\n\n"
  let r := r ++
    (match st.sensor_data with
     | [] => "⚠️ No hay datos de sensores disponibles en este momento.\n"
     | _ => "📊 **Lecturas de sensores:**\n   • Datos de sensores disponibles\n")
  let r := r ++
    (match st.climate_summary with
     | some a => "\n🔬 **Resumen climático:**\n" ++ formatClimateAnalysis a ++ "\n"
     | none => "")
  r ++
    (match st.recommendations with
     | [] => ""
     | recs =>
       "\n💡 **Recomendaciones:**\n" ++
         String.join ((recs.take 3).map fun rec => "   • " ++ rec ++ "\n"))

def historyResponse (st : AgricultureState) : String :=
  let r := "📈 **Análisis Histórico:**\n\n"
  let r := r ++
    (match st.time_period with
     | some p =>
       "📅 **Período analizado:** " ++ DateParser.formatDateRange p.start p.stop ++ "\n\n"
     | none => "")
  r ++
    (match st.climate_summary with
     | some a => "🔬 **Resumen climático:**\n" ++ formatClimateAnalysis a ++ "\n"
     | none => "")

def recommendationsResponse (st : AgricultureState) : String :=
  let r := "💡 **Recomendaciones Agrícolas:**\n\n"
  let r := r ++
    (match st.season_info with
     | some si => "🌤️ **Temporada actual:** " ++ si.characteristics ++ "\n\n"
     | none => "")
  r ++
    (match st.recommendations with
     | [] => "No hay recomendaciones específicas disponibles en este momento.\n"
     | recs =>
       "📋 **Recomendaciones:**\n" ++
         String.join (recs.map fun rec => "   • " ++ rec ++ "\n"))

def cropAdviceResponse (st : AgricultureState) : String :=
  let r := "🌱 **Consejos de Cultivo:**\n\n"
  let r := r ++
    (match st.crop_mentioned, st.crop_requirements with
     | some _, some cr =>
       "📖 **Información de " ++ cr.name ++ ":**\n" ++
         "   • Temperatura óptima: " ++ toString cr.tmin ++ "-" ++ toString cr.tmax ++ "°C\n" ++
         "   • Humedad óptima: " ++ toString cr.hmin ++ "-" ++ toString cr.hmax ++ "%\n" ++
         "   • Período de crecimiento: " ++ toString cr.growth_period_days ++ " días\n\n"
     | _, _ => "")
  r ++
    (match st.recommendations with
     | [] => ""
     | recs =>
       "♻️ **Prácticas regenerativas:**\n" ++
         String.join (recs.map fun rec => "   • " ++ rec ++ "\n"))

def generalResponse : String :=
  "🤖 **Asistente de Agricultura Regenerativa:**\n\n" ++
  "¡Hola! Soy tu asistente de agricultura regenerativa para Casanare.\n\n" ++
  "Puedo ayudarte con:\n" ++
  "   • 📊 Estado actual del clima\n" ++
  "   • 📈 Análisis histórico de datos\n" ++
  "   • 🌱 Información de cultivos\n" ++
  "   • 💡 Recomendaciones agrícolas\n" ++
  "   • 📅 Consejos estacionales\n\n" ++
  "¿En qué puedo ayudarte hoy?"

/-- `generate_final_response`. -/
def generate_final_response (st : AgricultureState) : AgricultureState :=
  let response :=
    if st.query_type == "current_status" then statusResponse st
    else if st.query_type == "climate_history" then historyResponse st
    else if st.query_type == "recommendations" then recommendationsResponse st
    else if st.query_type == "crop_advice" then cropAdviceResponse st
    else generalResponse
  let response :=
    if st.general_info_requested then
      response ++ "\n\nℹ️ **Información agrícola solicitada:**\n" ++
        AgricultureData.getGeneralAgricultureInfo st.general_info_category
    else response
  let response :=
    if st.suggest_general_info then
      let cat := if st.suggested_category == "" then "umbrales" else st.suggested_category
      response ++ "\n\n⚠️ **Sugerencia técnica:**\n" ++
        AgricultureData.getGeneralAgricultureInfo cat
    else response
  { st with final_answer := response, confidence := 9 / 10,
            processing_steps := st.processing_steps ++ ["final_response_generated"] }

/-- `handle_error` (`nodes/control.py`). -/
def handle_error (st : AgricultureState) : AgricultureState :=
  match st.error_message with
  | some e =>
    { st with
      final_answer := "❌ **Error:** " ++ e ++
        "\n\nPor favor, intenta reformular tu consulta o contacta soporte si el problema persiste.",
      confidence := 0 }
  | none => st

end Nodes

/-! ## Routing and the graph driver (`src/agent/core/graph.py`)

Each `_route_after_*` function is embedded with its literal edge labels.
The `try/except` around each router is unreachable here (the routers only
read total fields), matching the source where only the label computation is
guarded.  The graph is a DAG, so execution is the straight-line composition
below: after each node, its router picks the continuation;
`handle_error` always continues to END. -/

namespace Graph

def routeAfterClassification (st : AgricultureState) : String :=
  if st.error_message.isSome then "error"
  else if st.query_type == "current_status" || st.query_type == "climate_history" then
    "fetch_data"
  else if st.query_type == "crop_advice" then "crop_advice"
  else if st.query_type == "recommendations" then "recommendations"
  else "end"

def routeAfterFetchData (st : AgricultureState) : String :=
  if st.error_message.isSome then "error"
  else if !st.sensor_data.isEmpty then "analyze"
  else if st.query_type == "crop_advice" then "crop_advice"
  else if st.query_type == "recommendations" then "recommendations"
  else "end"

def routeAfterAnalysis (st : AgricultureState) : String :=
  if st.error_message.isSome then "error"
  else if st.query_type == "crop_advice" then "crop_advice"
  else if st.query_type == "recommendations" then "recommendations"
  else "generate_response"

def routeAfterCropRecommendations (st : AgricultureState) : String :=
  if st.error_message.isSome then "error" else "generate_response"

def routeAfterFinalResponse (st : AgricultureState) : String :=
  if st.error_message.isSome then "error"
  else if !st.final_answer.isEmpty then "end"
  else "error"

def routeAfterHandleError (_ : AgricultureState) : String := "end"

/-- Routing continuation after `generate_final_response` ran on `st`. -/
def contAfterRespond (st : AgricultureState) : AgricultureState :=
  if routeAfterFinalResponse st == "error" then Nodes.handle_error st else st

def runFromRespond (st : AgricultureState) : AgricultureState :=
  contAfterRespond (Nodes.generate_final_response st)

/-- Routing continuation after `get_crop_recommendations` ran on `st`. -/
def contAfterRecommend (st : AgricultureState) : AgricultureState :=
  if routeAfterCropRecommendations st == "error" then Nodes.handle_error st
  else runFromRespond st

def runFromRecommend (env : Env) (st : AgricultureState) : AgricultureState :=
  contAfterRecommend (Nodes.get_crop_recommendations env st)

/-- Routing continuation after `analyze_climate_data` ran on `st`. -/
def contAfterAnalysis (env : Env) (st : AgricultureState) : AgricultureState :=
  let label := routeAfterAnalysis st
  if label == "error" then Nodes.handle_error st
  else if label == "crop_advice" || label == "recommendations" then runFromRecommend env st
  else runFromRespond st

def runFromAnalyze (env : Env) (st : AgricultureState) : AgricultureState :=
  contAfterAnalysis env (Nodes.analyze_climate_data st)

/-- Routing continuation after `fetch_sensor_data` ran on `st`. -/
def contAfterFetch (env : Env) (st : AgricultureState) : AgricultureState :=
  let label := routeAfterFetchData st
  if label == "error" then Nodes.handle_error st
  else if label == "analyze" then runFromAnalyze env st
  else if label == "crop_advice" || label == "recommendations" then runFromRecommend env st
  else st

def runFromFetch (env : Env) (st : AgricultureState) : AgricultureState :=
  contAfterFetch env (Nodes.fetch_sensor_data env st)

/-- Routing continuation after `classify_query` ran on `st`. -/
def contAfterClassification (env : Env) (st : AgricultureState) : AgricultureState :=
  let label := routeAfterClassification st
  if label == "error" then Nodes.handle_error st
  else if label == "fetch_data" then runFromFetch env st
  else if label == "crop_advice" || label == "recommendations" then runFromRecommend env st
  else st

/-- `self.graph.invoke(initial_state)`: entry point `classify_query`, then
the conditional edges. -/
def invokeGraph (env : Env) (userQuery : String) : AgricultureState :=
  contAfterClassification env (Nodes.classify_query env (createInitialState userQuery))

/-- The response dict of `AgricultureGraph.process_query` (`timestamp` is a
wall-clock reading, not modelled).  Every key read with `.get` is present
in the state, so the `.get` defaults are never taken. -/
structure Response where
  answer : String
  confidence : ℚ
  query_type : String
  processing_steps : List String
  error_message : Option String
  meta_time_period : Option DateRange
  meta_crop_mentioned : Option String
  meta_location_mentioned : Option String
  meta_has_sensor_data : Bool
  meta_has_climate_analysis : Bool
  meta_recommendations_count : Nat
deriving DecidableEq, Repr

def processQuery (env : Env) (userQuery : String) : Response :=
  let result := invokeGraph env userQuery
  { answer := result.final_answer,
    confidence := result.confidence,
    query_type := result.query_type,
    processing_steps := result.processing_steps,
    error_message := result.error_message,
    meta_time_period := result.time_period,
    meta_crop_mentioned := result.crop_mentioned,
    meta_location_mentioned := result.location_mentioned,
    meta_has_sensor_data := !result.sensor_data.isEmpty,
    meta_has_climate_analysis := result.climate_summary.isSome,
    meta_recommendations_count := result.recommendations.length }

end Graph

/-! ## Spec-side definitions and concrete instances for the claim theorems -/

def metricName : Metric → String
  | .temperature => "temperature"
  | .humidity => "humidity"

/-- The population variance, following the spec's words: mean squared
deviation with divisor `n`; its square root is the population standard
deviation the spec attributes to the basic statistics. -/
def specPopulationVariance (l : List ℚ) : ℚ :=
  sumQ (l.map fun x => (x - meanQ l) ^ 2) / (l.length : ℚ)

/-- The sample variance (divisor `n − 1`); its square root is the sample
standard deviation that `pandas.Series.std` actually reports. -/
def specSampleVariance (l : List ℚ) : ℚ :=
  sumQ (l.map fun x => (x - meanQ l) ^ 2) / ((l.length - 1 : ℕ) : ℚ)

/-- The Monday of the ISO week containing day `t`. -/
def mondayOfWeek (t : Int) : Int := t - pyWeekday t

/-- An environment with no telemetry available (2024-06-10 as "today"). -/
def noTelemetryEnv : Env :=
  { today := 19884, currentReadings := [], historicalData := fun _ _ => [] }

def c1query : String := "¿qué debería sembrar esta temporada?"

def c2state : AgricultureState :=
  { createInitialState "consulta de prueba" with error_message := some "fallo de conexión" }

def c3recA : Record :=
  { ts := ⟨19884, 10, 5⟩, temperature := some 0, humidity := some 70,
    sensor_id := "s1", location := "yopal", sensor_name := "S1",
    location_description := "finca" }

def c3recB : Record :=
  { ts := ⟨19884, 10, 6⟩, temperature := some 2, humidity := some 70,
    sensor_id := "s1", location := "yopal", sensor_name := "S1",
    location_description := "finca" }

def c3batch : List Record := [c3recA, c3recB]

/-- A telemetry store that answers a range query with a single record
encoding the queried range (start as the day index, end as the
temperature), so the issued query is observable in `sensor_data`. -/
def c4probe (r : DateRange) : Record :=
  { ts := ⟨r.start, 0, 0⟩, temperature := some (r.stop : ℚ), humidity := none,
    sensor_id := "", location := "", sensor_name := "", location_description := "" }

def c4env : Env :=
  { today := 19884, currentReadings := [], historicalData := fun r _ => [c4probe r] }

def c4query : String := "histórico del 15/03/2024"

def c4state : AgricultureState :=
  Nodes.fetch_sensor_data c4env (Nodes.classify_query c4env (createInitialState c4query))

def c5text : String := "última semana 15/03/2024"

def c7query : String := "¿cuál es la temperatura actual del arroz?"

def c4classified : AgricultureState :=
  Nodes.classify_query c4env (createInitialState c4query)

/-! ## Claim theorems -/

/-- C1 (counterexample): the end-to-end scenario of the claim fails on the
code.  The query `¿qué debería sembrar esta temporada?` does not contain
any `recommendations` cue (the cue is the contiguous substring
`qué sembrar`, and the query reads `qué debería sembrar`), so it classifies
as `general`; and `_route_after_classification` sends `general` straight to
END — not to the respond stage — leaving `final_answer` empty and
`confidence` at 0 instead of `recommendations` / non-empty / 0.9. -/
theorem C1_counterexample_general_query_ends_without_answer :
    Graph.processQuery noTelemetryEnv c1query =
      { answer := "", confidence := 0, query_type := "general",
        processing_steps := ["query_classified"], error_message := none,
        meta_time_period := none, meta_crop_mentioned := none,
        meta_location_mentioned := none, meta_has_sensor_data := false,
        meta_has_climate_analysis := false, meta_recommendations_count := 0 } ∧
    Graph.routeAfterClassification
        (Nodes.classify_query noTelemetryEnv (createInitialState c1query)) = "end" ∧
    Classify.classifyType c1query = "general" ∧
    listHasSub (lowerList c1query.toList) "qué sembrar".toList = false :=
  ⟨by decide, by decide, by decide, by decide⟩

/-- C1 (amended): every query whose classification is none of the four
routed types (so `general` or unclassified) is routed from `classify`
directly to terminal — skipping fetch, analyze *and* respond — and the
observable result keeps the empty answer and confidence 0 (its
`query_type` is still reported). -/
theorem C1_general_queries_skip_all_stages (env : Env) (q : String)
    (h : Classify.classifyType q ∉
      ["current_status", "climate_history", "crop_advice", "recommendations"]) :
    Graph.routeAfterClassification (Nodes.classify_query env (createInitialState q)) = "end" ∧
    (Graph.processQuery env q).answer = "" ∧
    (Graph.processQuery env q).confidence = 0 ∧
    (Graph.processQuery env q).query_type = Classify.classifyType q ∧
    (Graph.processQuery env q).meta_has_sensor_data = false ∧
    (Graph.processQuery env q).meta_has_climate_analysis = false := by
  simp only [List.mem_cons, List.not_mem_nil, or_false, not_or] at h
  obtain ⟨h1, h2, h3, h4⟩ := h
  have hfields :
      (Nodes.classify_query env (createInitialState q)).query_type = Classify.classifyType q ∧
      (Nodes.classify_query env (createInitialState q)).error_message = none ∧
      (Nodes.classify_query env (createInitialState q)).final_answer = "" ∧
      (Nodes.classify_query env (createInitialState q)).confidence = 0 ∧
      (Nodes.classify_query env (createInitialState q)).sensor_data = [] ∧
      (Nodes.classify_query env (createInitialState q)).climate_summary = none := by
    unfold Nodes.classify_query
    simp only [createInitialState]
    cases hgi : Classify.generalInfoMatch q <;> simp [hgi]
  obtain ⟨f1, f2, f3, f4, f5, f6⟩ := hfields
  have hroute :
      Graph.routeAfterClassification (Nodes.classify_query env (createInitialState q)) = "end" := by
    unfold Graph.routeAfterClassification
    rw [f1, f2]
    simp [beq_eq_false_iff_ne.mpr h1, beq_eq_false_iff_ne.mpr h2,
          beq_eq_false_iff_ne.mpr h3, beq_eq_false_iff_ne.mpr h4]
  have hinv : Graph.invokeGraph env q = Nodes.classify_query env (createInitialState q) := by
    unfold Graph.invokeGraph Graph.contAfterClassification
    rw [hroute]
    simp
  refine ⟨hroute, ?_, ?_, ?_, ?_, ?_⟩ <;>
    simp [Graph.processQuery, hinv, f1, f3, f4, f5, f6]

/-- C1 (witness): the amended claim instantiated at the literal scenario
query with no telemetry available. -/
theorem C1_witness :
    Classify.classifyType c1query ∉
      ["current_status", "climate_history", "crop_advice", "recommendations"] ∧
    (Graph.routeAfterClassification
        (Nodes.classify_query noTelemetryEnv (createInitialState c1query)) = "end" ∧
      (Graph.processQuery noTelemetryEnv c1query).answer = "" ∧
      (Graph.processQuery noTelemetryEnv c1query).confidence = 0 ∧
      (Graph.processQuery noTelemetryEnv c1query).query_type = Classify.classifyType c1query ∧
      (Graph.processQuery noTelemetryEnv c1query).meta_has_sensor_data = false ∧
      (Graph.processQuery noTelemetryEnv c1query).meta_has_climate_analysis = false) :=
  ⟨by decide, C1_general_queries_skip_all_stages noTelemetryEnv c1query (by decide)⟩

/-- C2: error stickiness.  For every state with `error_message` set, every
router returns `error`, every routing continuation goes straight to
`handle_error` (no business node runs), `handle_error` routes to terminal,
and the observable result is the error answer with confidence 0. -/
theorem C2_error_message_sticky (env : Env) (st : AgricultureState) (e : String)
    (h : st.error_message = some e) :
    Graph.routeAfterClassification st = "error" ∧
    Graph.routeAfterFetchData st = "error" ∧
    Graph.routeAfterAnalysis st = "error" ∧
    Graph.routeAfterCropRecommendations st = "error" ∧
    Graph.routeAfterFinalResponse st = "error" ∧
    Graph.contAfterClassification env st = Nodes.handle_error st ∧
    Graph.contAfterFetch env st = Nodes.handle_error st ∧
    Graph.contAfterAnalysis env st = Nodes.handle_error st ∧
    Graph.contAfterRecommend st = Nodes.handle_error st ∧
    Graph.contAfterRespond st = Nodes.handle_error st ∧
    Graph.routeAfterHandleError (Nodes.handle_error st) = "end" ∧
    (Nodes.handle_error st).final_answer =
      "❌ **Error:** " ++ e ++
        "\n\nPor favor, intenta reformular tu consulta o contacta soporte si el problema persiste." ∧
    (Nodes.handle_error st).confidence = 0 := by
  have hs : st.error_message.isSome = true := by rw [h]; rfl
  refine ⟨?_, ?_, ?_, ?_, ?_, ?_, ?_, ?_, ?_, ?_, rfl, ?_, ?_⟩
  · simp [Graph.routeAfterClassification, hs]
  · simp [Graph.routeAfterFetchData, hs]
  · simp [Graph.routeAfterAnalysis, hs]
  · simp [Graph.routeAfterCropRecommendations, hs]
  · simp [Graph.routeAfterFinalResponse, hs]
  · simp [Graph.contAfterClassification, Graph.routeAfterClassification, hs]
  · simp [Graph.contAfterFetch, Graph.routeAfterFetchData, hs]
  · simp [Graph.contAfterAnalysis, Graph.routeAfterAnalysis, hs]
  · simp [Graph.contAfterRecommend, Graph.routeAfterCropRecommendations, hs]
  · simp [Graph.contAfterRespond, Graph.routeAfterFinalResponse, hs]
  · simp [Nodes.handle_error, h]
  · simp [Nodes.handle_error, h]

/-- C2 (witness): the stickiness theorem at a concrete errored state. -/
theorem C2_witness :
    c2state.error_message = some "fallo de conexión" ∧
    Graph.contAfterClassification noTelemetryEnv c2state = Nodes.handle_error c2state ∧
    Graph.contAfterRespond c2state = Nodes.handle_error c2state ∧
    (Nodes.handle_error c2state).confidence = 0 := by
  refine ⟨rfl, ?_, ?_, ?_⟩
  · exact (C2_error_message_sticky noTelemetryEnv c2state "fallo de conexión" rfl).2.2.2.2.2.1
  · exact (C2_error_message_sticky noTelemetryEnv c2state "fallo de conexión"
      rfl).2.2.2.2.2.2.2.2.2.1
  · exact (C2_error_message_sticky noTelemetryEnv c2state "fallo de conexión"
      rfl).2.2.2.2.2.2.2.2.2.2.2.2

/-- C3 (counterexample): the standard deviation reported in the basic
statistics is *not* the population standard deviation.  For the two-record
batch with temperatures 0 and 2, `_calculate_basic_stats` stores the
sample variance 2 (so the reported std is `√2 ≈ 1.414`, the `ddof = 1`
pandas default), while the population standard deviation of `[0, 2]` is
`√1 = 1`. -/
theorem C3_counterexample_sample_std_not_population :
    List.lookup "temperature" (ClimateAnalyzer.basicStats c3batch)
      = some (some { mean := 1, median := 1, min := 0, max := 2,
                     stdSq := some 2, count := 2 }) ∧
    valsOf c3batch .temperature = [0, 2] ∧
    specPopulationVariance [0, 2] = 1 ∧
    Real.sqrt 2 ≠ Real.sqrt 1 := by
  have hv : valsOf c3batch Metric.temperature = [0, 2] := rfl
  refine ⟨?_, hv, ?_, ?_⟩
  · show some (ClimateAnalyzer.calcBasicStat (valsOf c3batch Metric.temperature)) = _
    rw [hv]
    simp only [ClimateAnalyzer.calcBasicStat, ClimateAnalyzer.BasicStat.mk.injEq]
    norm_num [meanQ, sumQ, medianQ, sortQ, stableSort, insStable, stdSqOf]
  · norm_num [specPopulationVariance, meanQ, sumQ]
  · exact ne_of_gt (Real.sqrt_lt_sqrt (by norm_num) (by norm_num))

/-- C3 (amended): for every batch in which a metric has at least two
non-missing values, the standard deviation reported in the basic statistics
for that metric is the *sample* standard deviation — square root of the
squared-deviation sum divided by `n − 1` — not the population standard
deviation. -/
theorem C3_reported_std_is_sample_std (recs : List Record) (m : Metric)
    (h2 : 2 ≤ (valsOf recs m).length) :
    List.lookup (metricName m) (ClimateAnalyzer.basicStats recs)
      = some (ClimateAnalyzer.calcBasicStat (valsOf recs m)) ∧
    ∃ bs : ClimateAnalyzer.BasicStat,
      ClimateAnalyzer.calcBasicStat (valsOf recs m) = some bs ∧
      bs.stdSq = some (specSampleVariance (valsOf recs m)) := by
  constructor
  · cases m <;> rfl
  · cases hv : valsOf recs m with
    | nil => rw [hv] at h2; simp at h2
    | cons x xs =>
      refine ⟨_, rfl, ?_⟩
      show stdSqOf (x :: xs) = some (specSampleVariance (x :: xs))
      rw [hv] at h2
      unfold stdSqOf specSampleVariance
      rw [if_pos h2]

/-- C3 (witness): the amended claim at the concrete two-record batch. -/
theorem C3_witness :
    2 ≤ (valsOf c3batch .temperature).length ∧
    (List.lookup (metricName .temperature) (ClimateAnalyzer.basicStats c3batch)
        = some (ClimateAnalyzer.calcBasicStat (valsOf c3batch .temperature)) ∧
      ∃ bs : ClimateAnalyzer.BasicStat,
        ClimateAnalyzer.calcBasicStat (valsOf c3batch .temperature) = some bs ∧
        bs.stdSq = some (specSampleVariance (valsOf c3batch .temperature))) :=
  ⟨by decide, C3_reported_std_is_sample_std c3batch .temperature (by decide)⟩

/-- C4 (counterexample): the fetch stage does not pass the classifier's
`time_period` to the range query.  For `histórico del 15/03/2024` the
classifier resolves `time_period` to the single day 2024-03-15, but the
fetch stage re-extracts a keyword from the query text, finds none of its
fixed keywords, falls back to `última semana`, and issues the range query
for the previous Monday–Sunday week (2024-06-03 … 2024-06-09 for the probe
environment's "today", 2024-06-10) — observable through a telemetry store
that echoes the queried range. -/
theorem C4_counterexample_fetch_ignores_time_period :
    c4state.query_type = "climate_history" ∧
    c4state.time_period = some (singleDay (daysFromCivil 2024 3 15)) ∧
    Nodes.extractTimeExpression c4query = "última semana" ∧
    c4state.sensor_data = [c4probe ⟨daysFromCivil 2024 6 3, daysFromCivil 2024 6 9⟩] ∧
    (daysFromCivil 2024 6 3 : Int) ≠ daysFromCivil 2024 3 15 :=
  ⟨by decide, by decide, by decide, by decide, by decide⟩

/-- C4 (amended): for every query classified `climate_history` with a
non-null `time_period`, the fetch stage issues the range query with the
range obtained by *re-extracting* a time keyword from the raw query text
(default `última semana`) and re-parsing it — the classifier's
`time_period` only gates the branch and is left untouched; the fetched
records cover the classifier's range only when that re-extraction happens
to resolve to it. -/
theorem C4_fetch_reextracts_time_expression (env : Env) (st : AgricultureState)
    (hq : st.query_type = "climate_history") (hp : st.time_period.isSome = true) :
    (Nodes.fetch_sensor_data env st).sensor_data =
      getHistoricalStructured env (Nodes.extractTimeExpression st.user_query)
        st.location_mentioned ∧
    (Nodes.fetch_sensor_data env st).time_period = st.time_period := by
  unfold Nodes.fetch_sensor_data
  simp [hq, hp]

/-- C4 (witness): the amended claim at the concrete classified state for
`histórico del 15/03/2024`. -/
theorem C4_witness :
    c4classified.query_type = "climate_history" ∧
    c4classified.time_period.isSome = true ∧
    ((Nodes.fetch_sensor_data c4env c4classified).sensor_data =
        getHistoricalStructured c4env (Nodes.extractTimeExpression c4classified.user_query)
          c4classified.location_mentioned ∧
      (Nodes.fetch_sensor_data c4env c4classified).time_period = c4classified.time_period) :=
  ⟨by decide, by decide,
    C4_fetch_reextracts_time_expression c4env c4classified (by decide) (by decide)⟩

/-- C5 (counterexample): for a text containing both a relative named-period
expression and an explicit numeric date but no literal day word
(`última semana 15/03/2024`), the resolver returns the explicit date's
single-day range, not the relative week range the claim asserts — specific
dates are tried *before* relative named periods. -/
theorem C5_counterexample_explicit_date_wins :
    DateParser.parseTimeExpression 19884 c5text
      = some (singleDay (daysFromCivil 2024 3 15)) ∧
    DateParser.parseSpecificExpressions 19884 (stripSpaces (lowerList c5text.toList)) = none ∧
    DateParser.parseRelativePeriods 19884 (stripSpaces (lowerList c5text.toList))
      = some ⟨daysFromCivil 2024 6 3, daysFromCivil 2024 6 9⟩ ∧
    singleDay (daysFromCivil 2024 3 15)
      ≠ DateRange.mk (daysFromCivil 2024 6 3) (daysFromCivil 2024 6 9) :=
  ⟨by decide, by decide, by decide, by decide⟩

/-- C5 (amended): the resolver's order runs specific day words, then
specific dates, then relative periods, then weekdays — so whenever the day
words fail and the specific-date stage succeeds, its result is returned
regardless of any relative-period expression also present in the text. -/
theorem C5_specific_dates_precede_relative_periods (today : Int) (text : String)
    (r : DateRange)
    (h1 : DateParser.parseSpecificExpressions today
      (stripSpaces (lowerList text.toList)) = none)
    (h2 : DateParser.parseSpecificDates today
      (stripSpaces (lowerList text.toList)) = .ok (some r)) :
    DateParser.parseTimeExpression today text = some r := by
  simp only [DateParser.parseTimeExpression]
  rw [h1, h2]

/-- C5 (witness): the order theorem at the counterexample text. -/
theorem C5_witness :
    DateParser.parseSpecificExpressions 19884 (stripSpaces (lowerList c5text.toList)) = none ∧
    DateParser.parseSpecificDates 19884 (stripSpaces (lowerList c5text.toList))
      = .ok (some (singleDay (daysFromCivil 2024 3 15))) ∧
    DateParser.parseTimeExpression 19884 c5text
      = some (singleDay (daysFromCivil 2024 3 15)) :=
  ⟨by decide, rfl,
    C5_specific_dates_precede_relative_periods 19884 c5text
      (singleDay (daysFromCivil 2024 3 15)) (by decide) rfl⟩

/-- C6: analyzing an empty record sequence is total by construction and
returns `_empty_analysis`: data quality `poor`, issue list holding the
no-data marker, and empty basic statistics. -/
theorem C6_empty_batch_poor_quality :
    ClimateAnalyzer.analyzeClimateData [] = ClimateAnalyzer.emptyAnalysis ∧
    ClimateAnalyzer.emptyAnalysis.data_quality.quality = "poor" ∧
    ClimateAnalyzer.Issue.noData ∈ ClimateAnalyzer.emptyAnalysis.data_quality.issues ∧
    ClimateAnalyzer.emptyAnalysis.basic_stats = [] := by
  refine ⟨rfl, rfl, ?_, rfl⟩
  simp [ClimateAnalyzer.emptyAnalysis]

/-- C7: classifier priority — any query containing a current-status cue
word classifies as `current_status`, regardless of what else (such as a
crop name) the query contains, because the current-status test is the
first branch of the priority chain. -/
theorem C7_current_status_cue_priority (q : String)
    (h : ∃ w ∈ Classify.currentStatusCues, listHasSub (lowerList q.toList) w.toList = true) :
    Classify.classifyType q = "current_status" := by
  obtain ⟨w, hw, hsub⟩ := h
  have ha : Classify.anyCue Classify.currentStatusCues (lowerList q.data) = true :=
    List.any_eq_true.mpr ⟨w, hw, hsub⟩
  simp [Classify.classifyType, ha]

/-- C7 (witness): the literal query `¿cuál es la temperatura actual del
arroz?` carries both the cue `actual` and the crop `arroz`, and classifies
as `current_status`, not `crop_advice`. -/
theorem C7_witness :
    (∃ w ∈ Classify.currentStatusCues, listHasSub (lowerList c7query.toList) w.toList = true) ∧
    listHasSub (lowerList c7query.toList) "arroz".toList = true ∧
    Classify.classifyType c7query = "current_status" :=
  ⟨⟨"actual", by decide, by decide⟩, by decide,
    C7_current_status_cue_priority c7query ⟨"actual", by decide, by decide⟩⟩

/-- C8: for every "today", `resolve("última semana")` returns the
Monday-to-Sunday range of the calendar week immediately preceding the week
containing today: the start is the previous week's Monday (today's Monday
minus 7), the end its Sunday, a 7-day span ending strictly before today. -/
theorem C8_ultima_semana_previous_week (t : Int) :
    DateParser.parseTimeExpression t "última semana"
      = some ⟨mondayOfWeek t - 7, mondayOfWeek t - 1⟩ ∧
    pyWeekday (mondayOfWeek t - 7) = 0 ∧
    pyWeekday (mondayOfWeek t - 1) = 6 ∧
    mondayOfWeek t - 1 = (mondayOfWeek t - 7) + 6 ∧
    mondayOfWeek t - 1 < t ∧
    pyWeekday (mondayOfWeek t) = 0 ∧
    mondayOfWeek t ≤ t := by
  have hparse : DateParser.parseTimeExpression t "última semana" =
      some ⟨t - (pyWeekday t + 1) - 6, t - (pyWeekday t + 1)⟩ := rfl
  refine ⟨?_, ?_, ?_, ?_, ?_, ?_, ?_⟩
  · rw [hparse]
    simp only [Option.some.injEq, DateRange.mk.injEq]
    unfold mondayOfWeek
    omega
  all_goals (unfold mondayOfWeek pyWeekday; omega)

/-- C9: a batch of exactly one record with valid temperature and humidity
produces the same empty/poor analysis as an empty batch: the one-sample
sample standard deviation is `NaN`, the hourly-variability arg-max over the
all-`NaN` hourly deviations raises, and the top-level handler discards
every sub-analysis. -/
theorem C9_single_record_empty_analysis (ts : Timestamp) (t u : ℚ)
    (sid loc sname ldesc : String) :
    ClimateAnalyzer.analyzeClimateData [⟨ts, some t, some u, sid, loc, sname, ldesc⟩]
      = ClimateAnalyzer.emptyAnalysis ∧
    stdSqOf [t] = none ∧
    ClimateAnalyzer.variabilityAll [⟨ts, some t, some u, sid, loc, sname, ldesc⟩]
      = .error () ∧
    ClimateAnalyzer.analyzeClimateData ([] : List Record) = ClimateAnalyzer.emptyAnalysis := by
  set r : Record := ⟨ts, some t, some u, sid, loc, sname, ldesc⟩ with hr
  have hfil : List.filter (fun r' => r'.ts.hour == ts.hour) [r] = [r] := by
    simp [hr]
  have hvarT : ClimateAnalyzer.variabilityFor [r] Metric.temperature = .error () := by
    unfold ClimateAnalyzer.variabilityFor
    have hh : ClimateAnalyzer.hoursOf [r] = [ts.hour] := rfl
    rw [hh]
    simp only [List.map_cons, List.map_nil, hfil]
    rfl
  have hva : ClimateAnalyzer.variabilityAll [r] = .error () := by
    unfold ClimateAnalyzer.variabilityAll
    rw [hvarT]
    rfl
  have hbody : ClimateAnalyzer.analyzeBody [r] = .error () := by
    unfold ClimateAnalyzer.analyzeBody
    rw [hva]
  refine ⟨?_, rfl, hva, rfl⟩
  unfold ClimateAnalyzer.analyzeClimateData
  rw [hbody]

/-- C10: the `crop_advice` cue list holds only accented crop names while
the entity-extraction vocabulary also holds the unaccented variants, so the
query `maiz` classifies as `general` while `crop_mentioned` is nevertheless
set to `maiz`. -/
theorem C10_unaccented_crop_vocabulary_mismatch :
    Classify.classifyType "maiz" = "general" ∧
    Classify.extractCropMention "maiz" = some "maiz" ∧
    "maíz" ∈ Classify.cropAdviceCues ∧
    "maiz" ∉ Classify.cropAdviceCues ∧
    "maiz" ∈ Classify.cropsEntityList ∧
    "platano" ∈ Classify.cropsEntityList ∧
    "platano" ∉ Classify.cropAdviceCues ∧
    "citricos" ∈ Classify.cropsEntityList ∧
    "citricos" ∉ Classify.cropAdviceCues := by
  refine ⟨by decide, by decide, by decide, by decide, by decide, by decide,
    by decide, by decide, by decide⟩
